import Mathlib

/-!
Verification of the Home Connect device protocol handler (`HCDevice.py`).

The Python module is shallowly embedded: JSON/Python values are modelled by
the inductive type `JVal`, Python dictionaries by ordered association lists
(`Dict`), raised exceptions by `Except String`, and the mutable `HCDevice`
object state by the structure `HCState` threaded explicitly.  All functions
are executable and structurally recursive so that concrete runs reduce by
`rfl`/`decide`.
-/

/-- A JSON/Python value: `None`, booleans, integers, strings, lists and
(string-keyed, insertion-ordered) dictionaries. -/
inductive JVal where
  | jnull
  | jbool (b : Bool)
  | jint (n : Int)
  | jstr (s : String)
  | jarr (xs : List JVal)
  | jobj (fields : List (String × JVal))
deriving Repr

/-- A Python dictionary with string keys, as an insertion-ordered
association list. -/
abbrev Dict := List (String × JVal)

mutual

/-- Structural (order-sensitive) boolean equality on `JVal`. -/
def jvalBeq : JVal → JVal → Bool
  | .jnull, .jnull => true
  | .jbool a, .jbool b => a == b
  | .jint a, .jint b => a == b
  | .jstr a, .jstr b => a == b
  | .jarr xs, .jarr ys => jlistBeq xs ys
  | .jobj xs, .jobj ys => jobjBeq xs ys
  | _, _ => false

def jlistBeq : List JVal → List JVal → Bool
  | [], [] => true
  | x :: xs, y :: ys => jvalBeq x y && jlistBeq xs ys
  | _, _ => false

def jobjBeq : List (String × JVal) → List (String × JVal) → Bool
  | [], [] => true
  | (k1, v1) :: xs, (k2, v2) :: ys => k1 == k2 && jvalBeq v1 v2 && jobjBeq xs ys
  | _, _ => false

end

mutual

theorem jvalBeq_iff (a b : JVal) : jvalBeq a b = true ↔ a = b := by
  cases a <;> cases b <;> simp [jvalBeq]
  case jarr.jarr xs ys => exact jlistBeq_iff xs ys
  case jobj.jobj xs ys => exact jobjBeq_iff xs ys

theorem jlistBeq_iff (xs ys : List JVal) : jlistBeq xs ys = true ↔ xs = ys := by
  match xs, ys with
  | [], [] => simp [jlistBeq]
  | [], _ :: _ => simp [jlistBeq]
  | _ :: _, [] => simp [jlistBeq]
  | x :: xs, y :: ys => simp [jlistBeq, jvalBeq_iff x y, jlistBeq_iff xs ys]

theorem jobjBeq_iff (xs ys : List (String × JVal)) : jobjBeq xs ys = true ↔ xs = ys := by
  match xs, ys with
  | [], [] => simp [jobjBeq]
  | [], _ :: _ => simp [jobjBeq]
  | _ :: _, [] => simp [jobjBeq]
  | (k1, v1) :: xs, (k2, v2) :: ys =>
    simp [jobjBeq, jvalBeq_iff v1 v2, jobjBeq_iff xs ys, and_assoc]

end

instance : DecidableEq JVal := fun a b => decidable_of_iff _ (jvalBeq_iff a b)

deriving instance DecidableEq for Except

/-- `d[k]` lookup (first occurrence), i.e. Python `d.get(k)`. -/
def dlookup (d : Dict) (k : String) : Option JVal :=
  match d with
  | [] => none
  | (k2, v) :: rest => if k2 == k then some v else dlookup rest k

/-- Python `k in d` for a dictionary. -/
def hasKey (d : Dict) (k : String) : Bool :=
  match d with
  | [] => false
  | (k2, _) :: rest => k2 == k || hasKey rest k

/-- Python `d[k] = v`: replaces the value in place if the key exists,
otherwise appends the new binding. -/
def dinsert (d : Dict) (k : String) (v : JVal) : Dict :=
  match d with
  | [] => [(k, v)]
  | (k2, v2) :: rest =>
    if k2 == k then (k, v) :: rest else (k2, v2) :: dinsert rest k v

/-- Python truthiness (`if value:`). -/
def truthy : JVal → Bool
  | .jnull => false
  | .jbool b => b
  | .jint n => n != 0
  | .jstr s => s != ""
  | .jarr xs => !xs.isEmpty
  | .jobj kvs => !kvs.isEmpty

def quoteChar : String := String.singleton (Char.ofNat 39)

/-! Character-list implementations of the string operations the Python code
uses (`split`, `lower`, substring membership, `int()`), kept
kernel-executable. -/

/-- `s.split(sep)` for a single-character separator. -/
def splitOnChar (sep : Char) : List Char → List (List Char)
  | [] => [[]]
  | c :: rest =>
    match splitOnChar sep rest with
    | [] => [[]]
    | seg :: segs => if c == sep then [] :: seg :: segs else (c :: seg) :: segs

/-- Python `s.split(".")`. -/
def splitDot (s : String) : List String :=
  (splitOnChar '.' s.data).map String.mk

/-- Python `s.split("/")`. -/
def splitSlash (s : String) : List String :=
  (splitOnChar '/' s.data).map String.mk

/-- Python `s.lower()`. -/
def lowerStr (s : String) : String := String.mk (s.data.map Char.toLower)

/-- Does the text (second argument) start with the pattern? -/
def startsWithChars : List Char → List Char → Bool
  | [], _ => true
  | _ :: _, [] => false
  | p :: ps, t :: ts => p == t && startsWithChars ps ts

/-- Python substring containment `pat in text`. -/
def containsSub : List Char → List Char → Bool
  | pat, [] => pat.isEmpty
  | pat, c :: rest => startsWithChars pat (c :: rest) || containsSub pat rest

def digitsToNat (acc : Nat) : List Char → Option Nat
  | [] => some acc
  | c :: rest => if c.isDigit then digitsToNat (acc * 10 + (c.toNat - 48)) rest else none

/-- Python `int(s)` on a string: optional surrounding spaces, optional
sign, one or more digits. -/
def pyIntOfString (s : String) : Option Int :=
  let cs := (s.data.dropWhile (· == ' ')).reverse.dropWhile (· == ' ') |>.reverse
  match cs with
  | '-' :: rest => if rest.isEmpty then none else (digitsToNat 0 rest).map (fun n => -(n : Int))
  | '+' :: rest => if rest.isEmpty then none else (digitsToNat 0 rest).map (fun n => (n : Int))
  | rest => if rest.isEmpty then none else (digitsToNat 0 rest).map (fun n => (n : Int))

mutual

/-- Python `repr` of a value (used by `str` on containers). -/
def pyRepr : JVal → String
  | .jnull => "None"
  | .jbool b => if b then "True" else "False"
  | .jint n => toString n
  | .jstr s => quoteChar ++ s ++ quoteChar
  | .jarr xs => "[" ++ pyReprList xs ++ "]"
  | .jobj kvs => "\x7b" ++ pyReprObj kvs ++ "\x7d"

def pyReprList : List JVal → String
  | [] => ""
  | [x] => pyRepr x
  | x :: xs => pyRepr x ++ ", " ++ pyReprList xs

def pyReprObj : List (String × JVal) → String
  | [] => ""
  | [(k, v)] => quoteChar ++ k ++ quoteChar ++ ": " ++ pyRepr v
  | (k, v) :: kvs => quoteChar ++ k ++ quoteChar ++ ": " ++ pyRepr v ++ ", " ++ pyReprObj kvs

end

/-- Python `str(value)`. -/
def pyStr : JVal → String
  | .jstr s => s
  | v => pyRepr v

/-- Python `s in container` for a string `s` (key test for dictionaries,
substring test for strings, membership for lists; `TypeError` otherwise). -/
def pyIn (s : String) : JVal → Except String Bool
  | .jobj kvs => .ok (hasKey kvs s)
  | .jstr t => .ok (containsSub s.data t.data)
  | .jarr xs => .ok (xs.any (fun v => jvalBeq v (.jstr s)))
  | _ => .error "TypeError: argument not iterable"

/-- Python `==` between two dictionaries: equal key sets with equal values
(insertion order is irrelevant). -/
def pyDictEq (d1 d2 : Dict) : Bool :=
  d1.all (fun kv => dlookup d2 kv.1 == some kv.2) &&
    d2.all (fun kv => hasKey d1 kv.1)

mutual

/-- `_merge_dicts` (HCDevice.parse_values_new): merges the second dictionary
into the first, recursively when both sides hold dictionaries. -/
def mergeDicts : Dict → Dict → Dict
  | d1, [] => d1
  | d1, (k, v) :: rest => mergeDicts (mergeKey d1 k v) rest

/-- One step of `_merge_dicts`: `_dict1[_key] = _value`, except that two
dictionaries are merged recursively. -/
def mergeKey : Dict → String → JVal → Dict
  | d1, k, .jobj o2 =>
    match dlookup d1 k with
    | some (.jobj o1) => dinsert d1 k (.jobj (mergeDicts o1 o2))
    | _ => dinsert d1 k (.jobj o2)
  | d1, k, v => dinsert d1 k v

end

example : mergeDicts [("a", .jobj [("x", .jint 1)])] [("a", .jobj [("y", .jint 2)])]
    = [("a", .jobj [("x", .jint 1), ("y", .jint 2)])] := rfl

example : pyStr (.jobj [("a", .jint 1)]) = "\x7b" ++ quoteChar ++ "a" ++ quoteChar ++ ": 1\x7d" := rfl

/-! ## Value codec (`parse_values_new` and helpers) -/

/-- Python `name.split(".").pop()`: the segment after the last dot. -/
def splitLast (s : String) : String := (splitDot s).getLastD s

/-- `_to_bool` (HCDevice.parse_values_new): `_value.lower() == _payload_on`;
raises (`AttributeError`) when the value is not a string. -/
def toBool : JVal → String → Except String JVal
  | .jstr s, payloadOn => .ok (.jbool (lowerStr s == payloadOn))
  | _, _ => .error "AttributeError: lower"

/-- `_get_program_name` (HCDevice.parse_values_new):
`self.features.get(key, dict()).get("name", fallback).split(".").pop()`.
`key` is the already-stringified program number. -/
def getProgramName (features : Dict) (key : String) (fallback : String) : Except String String :=
  match dlookup features key with
  | none => .ok (splitLast fallback)
  | some (.jobj f) =>
    match dlookup f "name" with
    | some (.jstr s) => .ok (splitLast s)
    | some _ => .error "AttributeError: split"
    | none => .ok (splitLast fallback)
  | some _ => .error "AttributeError: get"

/-- `_decode_list_of_uids` (HCDevice.parse_values_new): folds a list of
`(uid, value)` pair dictionaries into a flat name-to-value dictionary.
`self.features.get(str(_uid), dict()).get("name")` yields `None` for an
unknown uid or a nameless descriptor, making the subsequent
`.split(".")` raise an `AttributeError`. -/
def decodeListOfUids (features : Dict) (acc : Dict) : List JVal → Except String Dict
  | [] => .ok acc
  | entry :: rest =>
    match entry with
    | .jobj ed =>
      let uidv := (dlookup ed "uid").getD .jnull
      let nameRes : Except String JVal :=
        match dlookup features (pyStr uidv) with
        | none => .ok .jnull
        | some (.jobj f) => .ok ((dlookup f "name").getD .jnull)
        | some _ => .error "AttributeError: get"
      match nameRes with
      | .error e => .error e
      | .ok (.jstr s) =>
        let v := (dlookup ed "value").getD .jnull
        decodeListOfUids features (dinsert acc (splitLast s) v) rest
      | .ok _ => .error "AttributeError: split"
    | _ => .error "AttributeError: get"

/-- Iteration of `_decode_list_of_uids` over an arbitrary Python container
(iterating a non-empty string or dictionary reaches an attribute access on
a string and raises; empty containers iterate zero times). -/
def decodeUidContainer (features : Dict) : JVal → Except String Dict
  | .jarr xs => decodeListOfUids features [] xs
  | .jobj [] => .ok []
  | .jstr "" => .ok []
  | _ => .error "TypeError: not iterable"

/-- The three special-cased enumerations of `parse_values_new`. -/
def offPresentConfirmed : Dict := [("0", .jstr "Off"), ("1", .jstr "Present"), ("2", .jstr "Confirmed")]

def offOn : Dict := [("0", .jstr "Off"), ("1", .jstr "On")]

def openClosed : Dict := [("0", .jstr "Open"), ("1", .jstr "Closed")]

/-- Scalar branch of `parse_values_new` (lines 168-197): enumeration label
substitution with the three special boolean collapses, else integer
cross-reference resolution, else pass-through. -/
def decode_scalar (features : Dict) (feature : Dict) (value : JVal) : Except String JVal :=
  let value_str := pyStr value
  let fallback : Except String JVal :=
    match value with
    | .jint n =>
      match getProgramName features (toString n) value_str with
      | .ok nm => .ok (.jstr nm)
      | .error e => .error e
    | v => .ok v
  match dlookup feature "values" with
  | some pv =>
    if truthy pv then
      match pyIn value_str pv with
      | .error e => .error e
      | .ok true =>
        match pv with
        | .jobj pvd =>
          match dlookup pvd value_str with
          | some resValue =>
            let payloadOn : Option String :=
              if pyDictEq pvd offPresentConfirmed then some "present"
              else if pyDictEq pvd offOn then some "on"
              else if pyDictEq pvd openClosed then some "open"
              else none
            match payloadOn with
            | some p => toBool resValue p
            | none => .ok resValue
          | none => .error "KeyError"
        | _ => .error "TypeError: not subscriptable"
      | .ok false => fallback
    else fallback
  | none => fallback

/-- The `list` sub-branch (lines 206-217): each list entry may contribute a
resolved `program` name and a decoded `options` dictionary. -/
def decodeListBranch (features : Dict) (acc : Dict) : List JVal → Except String Dict
  | [] => .ok acc
  | le :: rest =>
    match le with
    | .jobj led =>
      let step1 : Except String Dict :=
        match dlookup led "program" with
        | some p =>
          if truthy p then
            match getProgramName features (pyStr p) (pyStr p) with
            | .ok nm => .ok (dinsert acc "program" (.jstr nm))
            | .error e => .error e
          else .ok acc
        | none => .ok acc
      match step1 with
      | .error e => .error e
      | .ok acc1 =>
        match dlookup led "options" with
        | some (.jarr opts) =>
          if truthy (.jarr opts) then
            match decodeListOfUids features [] opts with
            | .ok od => decodeListBranch features (dinsert acc1 "options" (.jobj od)) rest
            | .error e => .error e
          else decodeListBranch features acc1 rest
        | _ => decodeListBranch features acc1 rest
    | _ => .error "AttributeError: get"

/-- The `sequence` sub-branch (lines 219-236): iterates the keys of the
first sequence element; `configuration` yields `options`/`program`,
`details` is decoded like `options`, anything else is ignored. -/
def decodeSequenceContent (features : Dict) (acc : Dict) : Dict → Except String Dict
  | [] => .ok acc
  | (k, v) :: rest =>
    if k == "configuration" then
      match v with
      | .jobj cfg =>
        let step1 : Except String Dict :=
          match dlookup cfg "options" with
          | some (.jarr opts) =>
            if truthy (.jarr opts) then
              match decodeListOfUids features [] opts with
              | .ok od => .ok (dinsert acc "options" (.jobj od))
              | .error e => .error e
            else .ok acc
          | _ => .ok acc
        match step1 with
        | .error e => .error e
        | .ok acc1 =>
          match dlookup cfg "program" with
          | some p =>
            if truthy p then
              match getProgramName features (pyStr p) (pyStr p) with
              | .ok nm => decodeSequenceContent features (dinsert acc1 "program" (.jstr nm)) rest
              | .error e => .error e
            else decodeSequenceContent features acc1 rest
          | none => decodeSequenceContent features acc1 rest
      | _ => .error "AttributeError: get"
    else if k == "details" then
      match decodeUidContainer features v with
      | .ok dd => decodeSequenceContent features (dinsert acc "details" (.jobj dd)) rest
      | .error e => .error e
    else decodeSequenceContent features acc rest

/-- The structured-value branch of `parse_values_new` (lines 199-241):
iterates the keys of the value dictionary; `list` and `sequence` get the
special treatment above, `length` is dropped, everything else is copied
through verbatim. -/
def decodeStructured (features : Dict) (acc : Dict) : Dict → Except String Dict
  | [] => .ok acc
  | (k, v) :: rest =>
    if k == "list" then
      match v with
      | .jarr valueList =>
        match decodeListBranch features acc valueList with
        | .ok acc1 => decodeStructured features acc1 rest
        | .error e => .error e
      | .jobj [] => decodeStructured features acc rest
      | .jstr "" => decodeStructured features acc rest
      | _ => .error "TypeError: not iterable"
    else if k == "sequence" then
      match v with
      | .jarr (sc :: _) =>
        match sc with
        | .jobj scd =>
          match decodeSequenceContent features acc scd with
          | .ok acc1 => decodeStructured features acc1 rest
          | .error e => .error e
        | .jarr [] => decodeStructured features acc rest
        | _ => .error "TypeError: not iterable"
      | .jarr [] => .error "IndexError"
      | _ => .error "TypeError: not subscriptable"
    else if k == "length" then decodeStructured features acc rest
    else decodeStructured features (dinsert acc k v) rest

/-- Builds the nested single-path tree `tree_dict` of `parse_values_new`
(lines 243-245): the last name segment keys the leaf, the earlier segments
wrap it outside-in. -/
def buildTree : List String → JVal → Dict
  | [], _ => []
  | [k], v => [(k, v)]
  | k :: rest, v => [(k, .jobj (buildTree rest v))]

/-- `feature = self.features.get(uid, dict())` (line 157); a non-dictionary
registry entry makes the later attribute accesses raise. -/
def getFeatureDict (features : Dict) (uid : String) : Except String Dict :=
  match dlookup features uid with
  | none => .ok []
  | some (.jobj f) => .ok f
  | some _ => .error "AttributeError: get"

/-- `name = feature.get("name", uid)` followed by `.lower()` (lines
158-159); a non-string name raises at `.lower()`. -/
def getFeatureName (feature : Dict) (uid : String) : Except String String :=
  match dlookup feature "name" with
  | some (.jstr s) => .ok s
  | some _ => .error "AttributeError: lower"
  | none => .ok uid

/-- The name segments used as tree keys (lines 159-162): lower-case, split
on dots, drop the leading segment when there is more than one. -/
def nameSegments (name0 : String) : List String :=
  let parts0 := splitDot (lowerStr name0)
  if parts0.length > 1 then parts0.drop 1 else parts0

/-- Dispatch between the structured branch and the scalar branch of
`parse_values_new` (lines 168-241). -/
def decodeValue (features feature : Dict) (value : JVal) : Except String JVal :=
  match value with
  | .jobj vd =>
    match decodeStructured features [] vd with
    | .ok d => .ok (.jobj d)
    | .error e => .error e
  | v => decode_scalar features feature v

/-- Processing of one batch entry by `parse_values_new` (lines 153-246). -/
def parseEntry (features : Dict) (result : Dict) (msg : JVal) : Except String Dict :=
  match msg with
  | .jobj md =>
    match dlookup md "uid" with
    | none => .error "KeyError: uid"
    | some uidv =>
      match dlookup md "value" with
      | none => .error "KeyError: value"
      | some value =>
        match getFeatureDict features (pyStr uidv) with
        | .error e => .error e
        | .ok feature =>
          match getFeatureName feature (pyStr uidv) with
          | .error e => .error e
          | .ok name0 =>
            match decodeValue features feature value with
            | .error e => .error e
            | .ok resValue =>
              match nameSegments name0 with
              | [] => .error "IndexError: pop from empty list"
              | ps => .ok (mergeDicts result (buildTree ps resValue))
  | _ => .error "TypeError: not subscriptable"

def parseEntries (features : Dict) (result : Dict) : List JVal → Except String Dict
  | [] => .ok result
  | m :: rest =>
    match parseEntry features result m with
    | .ok result1 => parseEntries features result1 rest
    | .error e => .error e

/-- Truthiness of `self.features` (a dictionary or `None`). -/
def featuresTruthy : Option Dict → Bool
  | none => false
  | some d => !d.isEmpty

/-- `HCDevice.parse_values_new` (lines 99-248): decodes a batch of raw
`(uid, value)` messages into a nested result tree keyed by the lower-cased
descriptor name segments (with the leading segment dropped).  When
`self.features` is falsy the input is returned unchanged. -/
def parse_values_new (features : Option Dict) (values : JVal) : Except String JVal :=
  if featuresTruthy features = false then .ok values
  else
    match values with
    | .jarr msgs =>
      match parseEntries (features.getD []) [] msgs with
      | .ok r => .ok (.jobj r)
      | .error e => .error e
    | .jobj [] => .ok (.jobj [])
    | .jstr "" => .ok (.jobj [])
    | _ => .error "TypeError: not iterable"

/-- The truthy `status` of `parse_values` (lines 82-87): present and truthy
or absent/falsy. -/
def oldStatus (features : Dict) (uid : String) : Except String (Option Dict) :=
  match dlookup features uid with
  | none => .ok none
  | some st =>
    if truthy st then
      match st with
      | .jobj f => .ok (some f)
      | _ => .error "TypeError: not a dict"
    else .ok none

/-- `name` resolution of `parse_values` (lines 81, 87-89). -/
def oldName (statusOpt : Option Dict) (uid : String) : Except String String :=
  match statusOpt with
  | some st =>
    match dlookup st "name" with
    | some (.jstr s) => .ok s
    | some _ => .error "TypeError: expected string"
    | none => .ok uid
  | none => .ok uid

/-- `value` substitution of `parse_values` (lines 90-91). -/
def oldValue (statusOpt : Option Dict) (value_str : String) (value0 : JVal) :
    Except String JVal :=
  match statusOpt with
  | some st =>
    match dlookup st "values" with
    | some pv =>
      match pyIn value_str pv with
      | .error e => .error e
      | .ok true =>
        match pv with
        | .jobj pvd =>
          match dlookup pvd value_str with
          | some v => .ok v
          | none => .ok value0
        | _ => .error "TypeError: not subscriptable"
      | .ok false => .ok value0
    | none => .ok value0
  | none => .ok value0

def parseValuesOldEntry (features : Dict) (result : Dict) (msg : JVal) : Except String Dict :=
  match msg with
  | .jobj md =>
    match dlookup md "uid" with
    | none => .error "KeyError: uid"
    | some uidv =>
      match dlookup md "value" with
      | none => .error "KeyError: value"
      | some value0 =>
        match oldStatus features (pyStr uidv) with
        | .error e => .error e
        | .ok statusOpt =>
          match oldName statusOpt (pyStr uidv) with
          | .error e => .error e
          | .ok name0 =>
            match oldValue statusOpt (pyStr value0) value0 with
            | .error e => .error e
            | .ok value1 => .ok (dinsert result (splitLast name0) value1)
  | _ => .error "TypeError: not subscriptable"

def parseValuesOldEntries (features : Dict) (result : Dict) : List JVal → Except String Dict
  | [] => .ok result
  | m :: rest =>
    match parseValuesOldEntry features result m with
    | .ok result1 => parseValuesOldEntries features result1 rest
    | .error e => .error e

/-- `HCDevice.parse_values` (lines 70-97): flat decoding keyed by the last
name segment.  When `self.features` is falsy the input is returned
unchanged. -/
def parse_values (features : Option Dict) (values : JVal) : Except String JVal :=
  if featuresTruthy features = false then .ok values
  else
    match values with
    | .jarr msgs =>
      match parseValuesOldEntries (features.getD []) [] msgs with
      | .ok r => .ok (.jobj r)
      | .error e => .error e
    | .jobj [] => .ok (.jobj [])
    | .jstr "" => .ok (.jobj [])
    | _ => .error "TypeError: not iterable"

example :
    parse_values_new
      (some [("512", .jobj [("name", .jstr "BSH.Common.Status.DoorState"),
                            ("values", .jobj [("0", .jstr "Open"), ("1", .jstr "Closed")])])])
      (.jarr [.jobj [("uid", .jint 512), ("value", .jint 0)]])
    = .ok (.jobj [("common", .jobj [("status", .jobj [("doorstate", .jbool true)])])]) := by
  decide

/-! ## Command validators (`test_feature`, `test_program_data`) -/

/-- Python `isinstance(v, int)` (booleans are integers in Python). -/
def pyIsInt : JVal → Bool
  | .jint _ => true
  | .jbool _ => true
  | _ => false

/-- The integer value of a Python integer (a boolean counts as 0 or 1). -/
def intVal : JVal → Option Int
  | .jint n => some n
  | .jbool b => some (if b then 1 else 0)
  | _ => none

/-- Python `int(v)`. -/
def pyInt : JVal → Except String Int
  | .jint n => .ok n
  | .jbool b => .ok (if b then 1 else 0)
  | .jstr s =>
    match pyIntOfString s with
    | some n => .ok n
    | none => .error "ValueError: invalid literal for int"
  | _ => .error "TypeError: int argument"

/-- The per-entry body of `HCDevice.test_feature` (lines 296-361). -/
def testFeatureEntry (features : Option Dict) (debug : Bool) (d : JVal) : Except String Unit :=
  match d with
  | .jobj dd =>
    match dlookup dd "uid" with
    | none => .error "Unable to configure appliance. UID is required."
    | some uidv =>
      if pyIsInt uidv = false then
        .error "Unable to configure appliance. UID must be an integer."
      else
        match dlookup dd "value" with
        | none => .error "Unable to configure appliance. Value is required."
        | some v =>
          let uid := pyStr uidv
          match features with
          | none => .error "TypeError: argument of type NoneType is not iterable"
          | some fs =>
            if hasKey fs uid = false then
              .error "Unable to configure appliance. UID is not valid."
            else
              match dlookup fs uid with
              | some (.jobj feature) =>
                -- in debug mode the log line reads feature["name"] and can raise KeyError
                if debug && (dlookup feature "name").isNone then
                  .error "KeyError: name"
                else
                  match dlookup feature "access" with
                  | none =>
                    .error "Unable to configure appliance. Feature does not have access."
                  | some (.jstr a) =>
                    let access := lowerStr a
                    if access != "readwrite" && access != "writeonly" then
                      .error "Unable to configure appliance. Feature has got wrong access."
                    else
                      let valuesCheck : Except String Unit :=
                        match dlookup feature "values" with
                        | some pv =>
                          if pyIsInt v = false then
                            .error "Unable to configure appliance. The value must be an integer."
                          else
                            match pyIn (pyStr v) pv with
                            | .error e => .error e
                            | .ok true => .ok ()
                            | .ok false =>
                              .error "Unable to configure appliance. Value is not a valid value (values)."
                        | none => .ok ()
                      match valuesCheck with
                      | .error e => .error e
                      | .ok _ =>
                        match dlookup feature "min" with
                        | some minv =>
                          match pyInt minv with
                          | .error e => .error e
                          | .ok minI =>
                            match dlookup feature "max" with
                            | none => .error "KeyError: max"
                            | some maxv =>
                              match pyInt maxv with
                              | .error e => .error e
                              | .ok maxI =>
                                match intVal v with
                                | none =>
                                  .error "Unable to configure appliance. Value is not a valid value (range)."
                                | some n =>
                                  if n < minI || n > maxI then
                                    .error "Unable to configure appliance. Value is not a valid value (range)."
                                  else .ok ()
                        | none => .ok ()
                  | some _ => .error "AttributeError: lower"
              | some _ => .error "TypeError: feature is not a dict"
              | none => .error "Unable to configure appliance. UID is not valid."
  | _ => .error "TypeError: entry is not a dict"

/-- `HCDevice.test_feature` (lines 293-361): validates a feature-write
payload entry by entry, raising on the first offending entry. -/
def test_feature (features : Option Dict) (debug : Bool) : List JVal → Except String Unit
  | [] => .ok ()
  | d :: rest =>
    match testFeatureEntry features debug d with
    | .ok _ => test_feature features debug rest
    | .error e => .error e

/-- The option-uid loop of `HCDevice.test_program_data` (lines 283-290). -/
def checkOptions (fs : Dict) : List JVal → Except String Unit
  | [] => .ok ()
  | o :: rest =>
    match o with
    | .jobj od =>
      match dlookup od "uid" with
      | none => .error "KeyError: uid"
      | some u =>
        if hasKey fs (pyStr u) = false then
          .error "Unable to configure appliance. Option UID is not valid for this device."
        else checkOptions fs rest
    | _ => .error "TypeError: option is not a dict"

/-- The per-entry body of `HCDevice.test_program_data` (lines 254-290). -/
def testProgramDataEntry (features : Option Dict) (d : JVal) : Except String Unit :=
  match d with
  | .jobj dd =>
    match dlookup dd "program" with
    | none => .error "Message data invalid, no program specified."
    | some p =>
      if pyIsInt p = false then
        .error "Message data invalid, UID in program must be an integer."
      else
        let uid := pyStr p
        match features with
        | none => .error "TypeError: argument of type NoneType is not iterable"
        | some fs =>
          if hasKey fs uid = false then
            .error "Unable to configure appliance. Program UID is not valid for this device."
          else
            match dlookup fs uid with
            | some (.jobj feature) =>
              let nameCheck : Except String Unit :=
                match dlookup feature "name" with
                | some (.jstr nm) =>
                  if containsSub ".Program.".data nm.data = false then
                    .error "Unable to configure appliance. Program UID is not a valid program."
                  else .ok ()
                | some _ => .error "TypeError: name is not a string"
                | none => .ok ()  -- only a warning is logged
              match nameCheck with
              | .error e => .error e
              | .ok _ =>
                match dlookup dd "options" with
                | none => .ok ()
                | some (.jarr opts) => checkOptions fs opts
                | some (.jobj []) => .ok ()
                | some (.jstr "") => .ok ()
                | some _ => .error "TypeError: not iterable"
            | some _ => .error "TypeError: feature is not a dict"
            | none => .error "Unable to configure appliance. Program UID is not valid for this device."
  | _ => .error "TypeError: entry is not a dict"

/-- `HCDevice.test_program_data` (lines 251-290): validates a
program-selection payload entry by entry. -/
def test_program_data (features : Option Dict) : List JVal → Except String Unit
  | [] => .ok ()
  | d :: rest =>
    match testProgramDataEntry features d with
    | .ok _ => test_program_data features rest
    | .error e => .error e

/-! ## Session state machine (`get`, `handle_message`) -/

/-- The mutable fields of an `HCDevice` instance that the session logic
touches.  `services` is keyed by the raw service value received from the
appliance; `tx_msg_id` is `None` until the handshake message arrives. -/
structure HCState where
  session_id : JVal
  tx_msg_id : Option JVal
  services_initialized : Bool
  services : List (JVal × JVal)
  token : JVal
  debug : Bool
  features : Option Dict
deriving Repr, DecidableEq

/-- Lookup in the per-service version table. -/
def svcLookup (svcs : List (JVal × JVal)) (k : JVal) : Option JVal :=
  match svcs with
  | [] => none
  | (k2, v) :: rest => if jvalBeq k2 k then some v else svcLookup rest k

/-- Insertion into the per-service version table (Python dict semantics). -/
def svcInsert (svcs : List (JVal × JVal)) (k : JVal) (v : JVal) : List (JVal × JVal) :=
  match svcs with
  | [] => [(k, v)]
  | (k2, v2) :: rest =>
    if jvalBeq k2 k then (k, v) :: rest else (k2, v2) :: svcInsert rest k v

/-- The outcome of one `HCDevice` method call: the messages handed to
`ws.send`, the (possibly partially mutated) instance state, and the
return value or the raised exception. -/
structure MethodOutcome where
  sent : List JVal
  state : HCState
  result : Except String JVal
deriving Repr, DecidableEq

/-- Version negotiation at the start of `HCDevice.get` (lines 392-399):
when the service table is initialized and the resource path has a service
component known to the table, the negotiated version replaces the
caller-supplied one. -/
def resolveVersion (st : HCState) (resource : String) (version : JVal) : Except String JVal :=
  if st.services_initialized then
    let parts := splitSlash resource
    if parts.length > 1 then
      match parts.get? 1 with
      | some service =>
        match svcLookup st.services (.jstr service) with
        | some sv =>
          match sv with
          | .jobj svd =>
            match dlookup svd "version" with
            | some v => .ok v
            | none => .error "KeyError: version"
          | _ => .error "TypeError: not subscriptable"
        | none => .ok version  -- "ERROR service not known" is only logged
      | none => .ok version
    else .ok version
  else .ok version

/-- Python `data if isinstance(data, list) else [data]` (line 410-411). -/
def wrapData : JVal → List JVal
  | .jarr xs => xs
  | v => [v]

/-- The tail of `HCDevice.get` (lines 426-432): `ws.send(msg)` inside a
`try` whose failure is logged and swallowed, then `self.tx_msg_id += 1`
(which raises when the counter is still `None` or not a number, after the
send). -/
def finishSend (st : HCState) (msg : Dict) (sendRaises : Bool) : MethodOutcome :=
  -- `sendRaises` models a transport failure; it never alters state or flow.
  match st.tx_msg_id with
  | some (.jint n) =>
    { sent := [.jobj msg], state := { st with tx_msg_id := some (.jint (n + 1)) },
      result := .ok .jnull }
  | some (.jbool b) =>
    { sent := [.jobj msg], state := { st with tx_msg_id := some (.jint ((if b then 1 else 0) + 1)) },
      result := .ok .jnull }
  | some _ => { sent := [.jobj msg], state := st, result := .error "TypeError: unsupported operand" }
  | none => { sent := [.jobj msg], state := st, result := .error "TypeError: unsupported operand" }

/-- The validation step of `HCDevice.get` (lines 413-422): POST payloads
for the three guarded resources go through the command validators unless
debug mode is on. -/
def validationFor (st : HCState) (resource : String) (action : String)
    (dlist : List JVal) : Except String Unit :=
  if action == "POST" && st.debug == false then
    if resource == "/ro/values" then test_feature st.features st.debug dlist
    else if resource == "/ro/activeProgram" then test_program_data st.features dlist
    else if resource == "/ro/selectedProgram" then test_program_data st.features dlist
    else .ok ()
  else .ok ()

/-- `HCDevice.get` (lines 391-432): stamps the message with the current
session id and sequence counter, validates POST payloads for the three
guarded resources unless debug mode is on, hands the message to the
transport, and increments the counter. -/
def HCDevice.get (st : HCState) (resource : String) (version : JVal) (action : String)
    (data : Option JVal) (sendRaises : Bool) : MethodOutcome :=
  match resolveVersion st resource version with
  | .error e => { sent := [], state := st, result := .error e }
  | .ok ver =>
    let msgBase : Dict :=
      [("sID", st.session_id), ("msgID", (st.tx_msg_id).getD .jnull),
       ("resource", .jstr resource), ("version", ver), ("action", .jstr action)]
    match data with
    | none => finishSend st msgBase sendRaises
    | some dv =>
      match validationFor st resource action (wrapData dv) with
      | .error e => { sent := [], state := st, result := .error e }
      | .ok _ => finishSend st (msgBase ++ [("data", .jarr (wrapData dv))]) sendRaises

/-- `if k in change: features[uid][k] = change[k]` for one field of a
description change (lines 523-532). -/
def mergeField (cd : Dict) (f : Dict) (k : String) : Dict :=
  match dlookup cd k with
  | some v => dinsert f k v
  | none => f

/-- The merged descriptor of a known uid: exactly the fields `access`,
`available`, `min`, `max` present in the change are written. -/
def mergeChangeFields (cd : Dict) (f : Dict) : Dict :=
  mergeField cd (mergeField cd (mergeField cd (mergeField cd f "access") "available") "min") "max"

/-- One description-change entry (lines 520-535): a known uid gets exactly
the fields `access`, `available`, `min`, `max` merged into its descriptor;
an unknown uid stores the whole change entry as a new descriptor. -/
def applyChange (fs : Dict) (c : JVal) : Except String Dict :=
  match c with
  | .jobj cd =>
    match dlookup cd "uid" with
    | none => .error "KeyError: uid"
    | some uidv =>
      match dlookup fs (pyStr uidv) with
      | some (.jobj f) => .ok (dinsert fs (pyStr uidv) (.jobj (mergeChangeFields cd f)))
      | some _ =>
        if hasKey cd "access" || hasKey cd "available" || hasKey cd "min" || hasKey cd "max" then
          .error "TypeError: not subscriptable"
        else .ok fs
      | none => .ok (dinsert fs (pyStr uidv) (.jobj cd))
  | _ => .error "TypeError: change is not a dict"

/-- The description-change loop; an exception keeps the mutations already
applied (the registry is updated in place). -/
def applyChanges (fs : Dict) : List JVal → Dict × Option String
  | [] => (fs, none)
  | c :: rest =>
    match applyChange fs c with
    | .ok fs1 => applyChanges fs1 rest
    | .error e => (fs, some e)

/-- The `/ci/services` loop (lines 575-578); an exception keeps the
entries already recorded. -/
def recordServices (svcs : List (JVal × JVal)) : List JVal → (List (JVal × JVal)) × Option String
  | [] => (svcs, none)
  | s :: rest =>
    match s with
    | .jobj sd =>
      match dlookup sd "service" with
      | none => (svcs, some "KeyError: service")
      | some name =>
        match name with
        | .jobj _ => (svcs, some "TypeError: unhashable")
        | .jarr _ => (svcs, some "TypeError: unhashable")
        | _ =>
          match dlookup sd "version" with
          | none => (svcs, some "KeyError: version")
          | some ver => recordServices (svcInsert svcs name (.jobj [("version", ver)])) rest
    | _ => (svcs, some "TypeError: not subscriptable")

/-- The `/ei/initialValues` handshake branch (lines 491-505): records the
session id and the appliance-supplied starting sequence number, then
replies with the fixed client identity using the message id the appliance
sent.  (The service-discovery thread it spawns is a separate execution
context and not part of this synchronous effect.) -/
def handleInitialValues (st : HCState) (md : Dict) (resource : JVal) : MethodOutcome :=
  match dlookup md "sID" with
  | none => { sent := [], state := st, result := .error "KeyError: sID" }
  | some sid =>
    let st1 := { st with session_id := sid }
    match dlookup md "data" with
    | some (.jarr (x :: _)) =>
      match x with
      | .jobj xd =>
        match dlookup xd "edMsgID" with
        | none => { sent := [], state := st1, result := .error "KeyError: edMsgID" }
        | some ed =>
          let st2 := { st1 with tx_msg_id := some ed }
          match dlookup md "msgID", dlookup md "version" with
          | some mid, some ver =>
            let reply : JVal := .jobj
              [("sID", sid), ("msgID", mid), ("resource", resource), ("version", ver),
               ("action", .jstr "RESPONSE"),
               ("data", .jarr [.jobj [("deviceType", .jstr "Application"),
                                      ("deviceName", .jstr "hcpy"),
                                      ("deviceID", .jstr "0badcafe")]])]
            { sent := [reply], state := st2, result := .ok (.jobj []) }
          | _, _ => { sent := [], state := st2, result := .error "KeyError: reply field" }
      | _ => { sent := [], state := st1, result := .error "TypeError: not subscriptable" }
    | some (.jarr []) => { sent := [], state := st1, result := .error "IndexError" }
    | some _ => { sent := [], state := st1, result := .error "TypeError: not subscriptable" }
    | none => { sent := [], state := st1, result := .error "KeyError: data" }

/-- `values = msg["data"][0]` under `if "data" in msg and len(msg["data"]) > 0`. -/
def firstDataElem (md : Dict) : Except String JVal :=
  match dlookup md "data" with
  | some (.jarr (x :: _)) => .ok x
  | some (.jarr []) => .ok (.jobj [])
  | some _ => .error "TypeError: len"
  | none => .ok (.jobj [])

/-- The `RESPONSE`/`NOTIFY` resource dispatch of `HCDevice.handle_message`
(lines 509-582). -/
def handleResponseNotify (st : HCState) (md : Dict) (resource : JVal) : MethodOutcome :=
          if jvalBeq resource (.jstr "/iz/info") || jvalBeq resource (.jstr "/ci/info") then
            { sent := [], state := st, result := firstDataElem md }
          else if jvalBeq resource (.jstr "/ro/descriptionChange")
              || jvalBeq resource (.jstr "/ro/allDescriptionChanges") then
            match dlookup md "data" with
            | some (.jarr (c :: cs)) =>
              match st.features with
              | none =>
                { sent := [], state := st,
                  result := .error "TypeError: argument of type NoneType is not iterable" }
              | some fs =>
                match applyChanges fs (c :: cs) with
                | (fs1, none) =>
                  { sent := [], state := { st with features := some fs1 }, result := .ok (.jobj []) }
                | (fs1, some e) =>
                  { sent := [], state := { st with features := some fs1 }, result := .error e }
            | some (.jarr []) => { sent := [], state := st, result := .ok (.jobj []) }
            | some _ => { sent := [], state := st, result := .error "TypeError: len" }
            | none => { sent := [], state := st, result := .ok (.jobj []) }
          else if jvalBeq resource (.jstr "/ni/info") then
            { sent := [], state := st, result := firstDataElem md }
          else if jvalBeq resource (.jstr "/ni/config") then
            { sent := [], state := st, result := .ok (.jobj []) }
          else if jvalBeq resource (.jstr "/ro/allMandatoryValues")
              || jvalBeq resource (.jstr "/ro/values") then
            match dlookup md "data" with
            | some dv =>
              { sent := [], state := st, result := parse_values_new st.features dv }
            | none => { sent := [], state := st, result := .ok (.jobj []) }
          else if jvalBeq resource (.jstr "/ci/registeredDevices")
              || jvalBeq resource (.jstr "/ci/tzInfo") then
            { sent := [], state := st, result := .ok (.jobj []) }
          else if jvalBeq resource (.jstr "/ci/authentication") then
            match dlookup md "data" with
            | some (.jarr (x :: _)) =>
              match x with
              | .jobj xd =>
                match dlookup xd "response" with
                | some tok =>
                  { sent := [], state := { st with token := tok }, result := .ok (.jobj []) }
                | none => { sent := [], state := st, result := .error "KeyError: response" }
              | _ => { sent := [], state := st, result := .error "TypeError: not subscriptable" }
            | some (.jarr []) => { sent := [], state := st, result := .ok (.jobj []) }
            | some _ => { sent := [], state := st, result := .error "TypeError: len" }
            | none => { sent := [], state := st, result := .ok (.jobj []) }
          else if jvalBeq resource (.jstr "/ci/services") then
            match dlookup md "data" with
            | none => { sent := [], state := st, result := .error "KeyError: data" }
            | some (.jarr xs) =>
              match recordServices st.services xs with
              | (svcs, none) =>
                { sent := [],
                  state := { st with services := svcs, services_initialized := true },
                  result := .ok (.jobj []) }
              | (svcs, some e) =>
                { sent := [], state := { st with services := svcs }, result := .error e }
            | some (.jobj []) =>
              { sent := [], state := { st with services_initialized := true },
                result := .ok (.jobj []) }
            | some (.jstr "") =>
              { sent := [], state := { st with services_initialized := true },
                result := .ok (.jobj []) }
            | some _ => { sent := [], state := st, result := .error "TypeError: not iterable" }
          else
            { sent := [], state := st, result := .ok (.jobj []) }

/-- The body of `HCDevice.handle_message` for a dictionary-shaped frame:
routing by `code`/`action`/`resource` (lines 480-588). -/
def handleObj (st : HCState) (md : Dict) : MethodOutcome :=
    match dlookup md "resource" with
    | none => { sent := [], state := st, result := .error "KeyError: resource" }
    | some resource =>
      match dlookup md "action" with
      | none => { sent := [], state := st, result := .error "KeyError: action" }
      | some action =>
        if hasKey md "code" then
          { sent := [], state := st,
            result := .ok (.jobj [("error", (dlookup md "code").getD .jnull),
                                  ("resource", resource)]) }
        else if jvalBeq action (.jstr "POST") then
          if jvalBeq resource (.jstr "/ei/initialValues") then
            handleInitialValues st md resource
          else
            -- logger.warning("Unknown resource", resource, file=sys.stderr)
            -- raises TypeError on a standard logging.Logger
            { sent := [], state := st, result := .error "TypeError: logging call" }
        else if jvalBeq action (.jstr "RESPONSE") || jvalBeq action (.jstr "NOTIFY") then
          handleResponseNotify st md resource
        else
          { sent := [], state := st, result := .ok (.jobj []) }

/-- `HCDevice.handle_message` (lines 474-588) on an already-decoded frame:
routes by `code`/`action`/`resource`, mutating the session state and
returning the parsed values (an exception leaves the mutations already
applied in place, as `recv` catches and logs it). -/
def handle_message (st : HCState) (m : JVal) : MethodOutcome :=
  match m with
  | .jobj md => handleObj st md
  | _ => { sent := [], state := st, result := .error "TypeError: not subscriptable" }

/-! ## Interleaved session runs -/

/-- One step of a session: an outbound `get` issued by the host, or an
inbound frame dispatched through `handle_message`. -/
inductive SessionEvent where
  | outbound (resource : String) (version : JVal) (action : String)
      (data : Option JVal) (sendRaises : Bool)
  | inbound (m : JVal)

/-- Is the frame the session-establishing handshake (`POST
/ei/initialValues` without an error code)?  Only this branch of the
dispatcher touches the sequence counter. -/
def isHandshakeFrame : JVal → Bool
  | .jobj md =>
    !hasKey md "code"
      && (match dlookup md "action" with
          | some a => jvalBeq a (.jstr "POST")
          | none => false)
      && (match dlookup md "resource" with
          | some r => jvalBeq r (.jstr "/ei/initialValues")
          | none => false)
  | _ => false

/-- Executes one event.  A failed `get` propagates to the caller (`none`);
an inbound frame whose handling raises is caught by `recv`, which keeps
the session alive with whatever state mutations already happened. -/
def runStep (st : HCState) : SessionEvent → Option HCState
  | .outbound resource version action data sendRaises =>
    let o := HCDevice.get st resource version action data sendRaises
    match o.result with
    | .ok _ => some o.state
    | .error _ => none
  | .inbound m => some (handle_message st m).state

/-- Runs a list of session events, stopping at the first failed `get`. -/
def runSession (st : HCState) : List SessionEvent → Option HCState
  | [] => some st
  | e :: rest =>
    match runStep st e with
    | some st1 => runSession st1 rest
    | none => none

/-- The number of outbound `get` calls in an event list. -/
def countOutbound : List SessionEvent → Nat
  | [] => 0
  | .outbound _ _ _ _ _ :: rest => countOutbound rest + 1
  | .inbound _ :: rest => countOutbound rest

/-! ## Dictionary lemmas -/

theorem dlookup_isSome_iff_hasKey (d : Dict) (k : String) :
    (dlookup d k).isSome = hasKey d k := by
  induction d with
  | nil => simp [dlookup, hasKey]
  | cons kv rest ih =>
    obtain ⟨k2, v⟩ := kv
    by_cases h : (k2 == k) = true <;> simp [dlookup, hasKey, h, ih]

theorem dlookup_none_of_hasKey_false {d : Dict} {k : String} (h : hasKey d k = false) :
    dlookup d k = none := by
  have := dlookup_isSome_iff_hasKey d k
  rw [h] at this
  exact Option.not_isSome_iff_eq_none.mp (by simp [this])

theorem hasKey_of_dlookup_some {d : Dict} {k : String} {v : JVal}
    (h : dlookup d k = some v) : hasKey d k = true := by
  have := dlookup_isSome_iff_hasKey d k
  rw [h] at this
  exact this.symm.trans rfl

theorem dlookup_mem {d : Dict} {k : String} {v : JVal} (h : dlookup d k = some v) :
    (k, v) ∈ d := by
  induction d with
  | nil => simp [dlookup] at h
  | cons kv rest ih =>
    obtain ⟨k2, v2⟩ := kv
    by_cases hk : (k2 == k) = true
    · simp [dlookup, hk] at h
      simp [eq_of_beq hk, h]
    · simp [dlookup, hk] at h
      exact List.mem_cons_of_mem _ (ih h)

theorem dlookup_dinsert_self (d : Dict) (k : String) (v : JVal) :
    dlookup (dinsert d k v) k = some v := by
  induction d with
  | nil => simp [dinsert, dlookup]
  | cons kv rest ih =>
    obtain ⟨k2, v2⟩ := kv
    by_cases hk : (k2 == k) = true <;> simp [dinsert, dlookup, hk, ih]

theorem dlookup_dinsert_ne (d : Dict) (k : String) (v : JVal) (x : String) (hx : x ≠ k) :
    dlookup (dinsert d k v) x = dlookup d x := by
  have hkx : ¬ ((k == x) = true) := fun h => hx (eq_of_beq h).symm
  induction d with
  | nil => simp [dinsert, dlookup, hkx]
  | cons kv rest ih =>
    obtain ⟨k2, v2⟩ := kv
    by_cases hk : (k2 == k) = true
    · have h2 : ¬ ((k2 == x) = true) := fun h => hkx (by
        have := (eq_of_beq hk).symm.trans (eq_of_beq h)
        simp [this])
      simp [dinsert, dlookup, hk, hkx, h2]
    · by_cases h2 : (k2 == x) = true <;> simp [dinsert, dlookup, hk, h2, ih]

theorem dinsert_of_hasKey_false {d : Dict} {k : String} (v : JVal)
    (h : hasKey d k = false) : dinsert d k v = d ++ [(k, v)] := by
  induction d with
  | nil => simp [dinsert]
  | cons kv rest ih =>
    obtain ⟨k2, v2⟩ := kv
    simp [hasKey] at h
    simp [dinsert, h.1, ih h.2]

/-- The keys of a dictionary. -/
def dkeys (d : Dict) : List String := d.map Prod.fst

theorem hasKey_iff_mem_dkeys (d : Dict) (k : String) :
    hasKey d k = true ↔ k ∈ dkeys d := by
  induction d with
  | nil => simp [hasKey, dkeys]
  | cons kv rest ih =>
    obtain ⟨k2, v2⟩ := kv
    by_cases h : (k2 == k) = true
    · simp [hasKey, dkeys, h, eq_of_beq h]
    · have hne : ¬ (k = k2) := fun he => by simp [he] at h
      simp [hasKey, dkeys, h, ih, dkeys, hne, eq_comm]

theorem dkeys_dinsert (d : Dict) (k : String) (v : JVal) :
    dkeys (dinsert d k v) = if hasKey d k then dkeys d else dkeys d ++ [k] := by
  induction d with
  | nil => simp [dinsert, dkeys, hasKey]
  | cons kv rest ih =>
    obtain ⟨k2, v2⟩ := kv
    by_cases h : (k2 == k) = true
    · simp [dinsert, dkeys, hasKey, h, eq_of_beq h]
    · by_cases h2 : hasKey rest k = true <;>
        simp [dinsert, dkeys, hasKey, h, h2] <;> simp [dkeys] at ih <;> simp [ih, h2]

/-- Distinct keys, the invariant every dictionary built by the codec
enjoys. -/
def nodupKeys (d : Dict) : Prop := (dkeys d).Nodup

theorem nodupKeys_dinsert {d : Dict} (k : String) (v : JVal) (h : nodupKeys d) :
    nodupKeys (dinsert d k v) := by
  unfold nodupKeys
  rw [dkeys_dinsert]
  by_cases hk : hasKey d k = true
  · simpa [hk] using h
  · simp only [hk, if_false, Bool.false_eq_true]
    rw [List.nodup_append]
    refine ⟨h, List.nodup_singleton k, ?_⟩
    intro x hx
    simp only [List.mem_singleton]
    intro he
    subst he
    exact hk ((hasKey_iff_mem_dkeys d x).mpr hx)

theorem hasKey_append (d1 d2 : Dict) (x : String) :
    hasKey (d1 ++ d2) x = (hasKey d1 x || hasKey d2 x) := by
  induction d1 with
  | nil => simp [hasKey]
  | cons kv rest ih =>
    obtain ⟨k, v⟩ := kv
    by_cases h : (k == x) = true <;> simp [hasKey, h, ih]

theorem nodupKeys_mergeKey {d1 : Dict} (k : String) (v : JVal) (h : nodupKeys d1) :
    nodupKeys (mergeKey d1 k v) := by
  cases v <;> simp only [mergeKey] <;> try exact nodupKeys_dinsert _ _ h
  split <;> exact nodupKeys_dinsert _ _ h

theorem nodupKeys_mergeDicts (d2 : Dict) : ∀ d1, nodupKeys d1 → nodupKeys (mergeDicts d1 d2) := by
  induction d2 with
  | nil => intro d1 h; simpa [mergeDicts] using h
  | cons kv rest ih =>
    intro d1 h
    obtain ⟨k, v⟩ := kv
    rw [show mergeDicts d1 ((k, v) :: rest) = mergeDicts (mergeKey d1 k v) rest from rfl]
    exact ih _ (nodupKeys_mergeKey k v h)

theorem dkeys_nil : dkeys [] = [] := rfl

theorem dkeys_cons (k : String) (v : JVal) (d : Dict) :
    dkeys ((k, v) :: d) = k :: dkeys d := rfl

theorem mergeDicts_append (d2 : Dict) : ∀ d1, (∀ x ∈ dkeys d2, hasKey d1 x = false) →
    nodupKeys d2 → mergeDicts d1 d2 = d1 ++ d2 := by
  induction d2 with
  | nil => intro d1 _ _; simp [mergeDicts]
  | cons kv rest ih =>
    obtain ⟨k, v⟩ := kv
    intro d1 hdisj hnd
    have hnd2 : k ∉ dkeys rest ∧ (dkeys rest).Nodup := by
      have : (k :: dkeys rest).Nodup := by
        rw [← dkeys_cons k v rest]
        exact hnd
      exact List.nodup_cons.mp this
    have hk : hasKey d1 k = false := hdisj k (by simp [dkeys_cons])
    have hmk : mergeKey d1 k v = d1 ++ [(k, v)] := by
      cases v <;>
        simp [mergeKey, dinsert_of_hasKey_false _ hk, dlookup_none_of_hasKey_false hk]
    rw [show mergeDicts d1 ((k, v) :: rest) = mergeDicts (mergeKey d1 k v) rest from rfl, hmk]
    rw [ih (d1 ++ [(k, v)]) ?_ hnd2.2]
    · simp
    · intro x hx
      have hxk : x ≠ k := by
        intro he
        subst he
        exact hnd2.1 hx
      have h1 : hasKey d1 x = false := hdisj x (by rw [dkeys_cons]; exact List.mem_cons_of_mem _ hx)
      have h3 : hasKey [(k, v)] x = false := by
        have : (k == x) = false := beq_eq_false_iff_ne.mpr (fun he => hxk he.symm)
        simp [hasKey, this]
      rw [hasKey_append, h1, h3]
      rfl

/-- The empty dictionary is a left identity of `_merge_dicts` on
dictionaries with distinct keys. -/
theorem mergeDicts_nil_left {d : Dict} (h : nodupKeys d) : mergeDicts [] d = d := by
  have := mergeDicts_append d [] (by intro x _; simp [hasKey]) h
  simpa using this

theorem parseEntry_nodupKeys {fs acc : Dict} {m : JVal} {acc' : Dict}
    (h : parseEntry fs acc m = .ok acc') (hnd : nodupKeys acc) : nodupKeys acc' := by
  unfold parseEntry at h
  repeat' split at h
  all_goals simp only [Except.ok.injEq, reduceCtorEq] at h
  all_goals exact h ▸ nodupKeys_mergeDicts _ _ hnd

theorem parseEntries_nodupKeys {fs : Dict} {msgs : List JVal} :
    ∀ {acc t : Dict}, parseEntries fs acc msgs = .ok t → nodupKeys acc → nodupKeys t := by
  induction msgs with
  | nil =>
    intro acc t h hnd
    simp [parseEntries] at h
    subst h
    exact hnd
  | cons m rest ih =>
    intro acc t h hnd
    unfold parseEntries at h
    split at h
    · exact ih h (parseEntry_nodupKeys (by assumption) hnd)
    · simp at h

theorem parse_values_new_nodupKeys {features : Option Dict} {msgs : List JVal} {t : Dict}
    (h : parse_values_new features (.jarr msgs) = .ok (.jobj t)) : nodupKeys t := by
  unfold parse_values_new at h
  split at h
  · simp at h
  · split at h
    · rename_i xs heq
      obtain rfl : msgs = xs := by injection heq
      split at h
      · rename_i r heq2
        obtain rfl : r = t := by simp at h; exact h
        exact parseEntries_nodupKeys heq2 (by simp [nodupKeys, dkeys])
      · simp at h
    · rename_i heq
      exact absurd heq (by simp)
    · rename_i heq
      exact absurd heq (by simp)
    · rename_i hcatch _ _
      exact absurd rfl (hcatch msgs)

/-! ## Concrete fixtures -/

/-- The door-state registry of the end-to-end example: uid `512` with the
`Open`/`Closed` enumeration. -/
def fs512 : Dict :=
  [("512", .jobj [("name", .jstr "BSH.Common.Status.DoorState"),
                  ("values", .jobj [("0", .jstr "Open"), ("1", .jstr "Closed")])])]

def doorBatchList : List JVal := [.jobj [("uid", .jint 512), ("value", .jint 0)]]

def doorBatch : JVal := .jarr doorBatchList

/-- What the codec actually produces for the example batch. -/
def doorTree : Dict := [("common", .jobj [("status", .jobj [("doorstate", .jbool true)])])]

/-! ## Claims -/

/-- C10: if the feature catalog is empty or absent (`self.features` is
falsy), `parse_values_new` (and likewise `parse_values`) returns the input
unchanged rather than a canonical nested tree. -/
theorem spec_c10_features_falsy_passthrough (values : JVal) :
    parse_values_new none values = .ok values ∧
    parse_values_new (some []) values = .ok values ∧
    parse_values none values = .ok values ∧
    parse_values (some []) values = .ok values := by
  refine ⟨?_, ?_, ?_, ?_⟩ <;> simp [parse_values_new, parse_values, featuresTruthy]

/-- C3 (counterexample): with the registry
`{"512": {name: "BSH.Common.Status.DoorState", values: {"0": "Open", "1":
"Closed"}}}`, decoding `[{"uid": 512, "value": 0}]` does NOT yield the flat
tree `{"doorstate": true}` the claim states. -/
theorem spec_c3_counterexample :
    parse_values_new (some fs512) doorBatch ≠ .ok (.jobj [("doorstate", .jbool true)]) := by
  decide

/-- C3 (amended): decoding that batch yields the boolean `true` (the
`Open`/`Closed` enumeration collapses, label "Open" matching payload
"open" case-insensitively), but placed at the nested path
`common.status.doorstate` — the lower-cased descriptor name minus its
leading segment — not at a flat `doorstate` key. -/
theorem spec_c3_amended_nested_tree :
    parse_values_new (some fs512) doorBatch = .ok (.jobj doorTree) := by
  decide

/-- C9: the codec is a deterministic function of its inputs, and merging a
decoded tree into the empty tree with the recursive dictionary merge gives
back exactly that tree (decoded trees have distinct keys, on which the
empty dictionary is a left identity of `_merge_dicts`). -/
theorem spec_c9_codec_deterministic_merge_identity (features : Option Dict)
    (msgs : List JVal) (t : Dict)
    (h : parse_values_new features (.jarr msgs) = .ok (.jobj t)) :
    parse_values_new features (.jarr msgs) = parse_values_new features (.jarr msgs) ∧
      mergeDicts [] t = t :=
  ⟨rfl, mergeDicts_nil_left (parse_values_new_nodupKeys h)⟩

theorem spec_c9_witness :
    parse_values_new (some fs512) (.jarr doorBatchList)
        = parse_values_new (some fs512) (.jarr doorBatchList) ∧
      mergeDicts [] doorTree = doorTree :=
  spec_c9_codec_deterministic_merge_identity (some fs512) doorBatchList doorTree (by decide)

/-! ## C7: description-change registry semantics -/

theorem dlookup_mergeField_present (cd f : Dict) (k : String) (h : hasKey cd k = true) :
    dlookup (mergeField cd f k) k = dlookup cd k := by
  unfold mergeField
  match hk : dlookup cd k with
  | none =>
    rw [← dlookup_isSome_iff_hasKey, hk] at h
    simp at h
  | some v => simp [dlookup_dinsert_self]

theorem mergeField_absent (cd f : Dict) (k : String) (h : hasKey cd k = false) :
    mergeField cd f k = f := by
  unfold mergeField
  rw [dlookup_none_of_hasKey_false h]

theorem dlookup_mergeField_ne (cd f : Dict) (k x : String) (h : x ≠ k) :
    dlookup (mergeField cd f k) x = dlookup f x := by
  unfold mergeField
  match hk : dlookup cd k with
  | none => rfl
  | some v => simp [dlookup_dinsert_ne _ _ _ _ h]

theorem hasKey_mergeField (cd f : Dict) (k x : String) (h : hasKey f x = true) :
    hasKey (mergeField cd f k) x = true := by
  unfold mergeField
  match hk : dlookup cd k with
  | none => exact h
  | some v =>
    simp only
    rw [← dlookup_isSome_iff_hasKey] at h ⊢
    by_cases hx : x = k
    · subst hx; simp [dlookup_dinsert_self]
    · rwa [dlookup_dinsert_ne _ _ _ _ hx]

theorem mergeChangeFields_spec (cd f : Dict) :
    (∀ k, (k = "access" ∨ k = "available" ∨ k = "min" ∨ k = "max") → hasKey cd k = true →
        dlookup (mergeChangeFields cd f) k = dlookup cd k) ∧
    (∀ k, ((k = "access" ∨ k = "available" ∨ k = "min" ∨ k = "max") → hasKey cd k = false) →
        dlookup (mergeChangeFields cd f) k = dlookup f k) := by
  unfold mergeChangeFields
  constructor
  · rintro k (rfl | rfl | rfl | rfl) hk
    · rw [dlookup_mergeField_ne _ _ _ _ (by decide), dlookup_mergeField_ne _ _ _ _ (by decide),
        dlookup_mergeField_ne _ _ _ _ (by decide), dlookup_mergeField_present _ _ _ hk]
    · rw [dlookup_mergeField_ne _ _ _ _ (by decide), dlookup_mergeField_ne _ _ _ _ (by decide),
        dlookup_mergeField_present _ _ _ hk]
    · rw [dlookup_mergeField_ne _ _ _ _ (by decide), dlookup_mergeField_present _ _ _ hk]
    · rw [dlookup_mergeField_present _ _ _ hk]
  · intro k hk
    by_cases h1 : k = "max"
    · subst h1
      rw [mergeField_absent _ _ _ (hk (by simp)), dlookup_mergeField_ne _ _ _ _ (by decide),
        dlookup_mergeField_ne _ _ _ _ (by decide), dlookup_mergeField_ne _ _ _ _ (by decide)]
    · rw [dlookup_mergeField_ne _ _ _ _ h1]
      by_cases h2 : k = "min"
      · subst h2
        rw [mergeField_absent _ _ _ (hk (by simp)), dlookup_mergeField_ne _ _ _ _ (by decide),
          dlookup_mergeField_ne _ _ _ _ (by decide)]
      · rw [dlookup_mergeField_ne _ _ _ _ h2]
        by_cases h3 : k = "available"
        · subst h3
          rw [mergeField_absent _ _ _ (hk (by simp)), dlookup_mergeField_ne _ _ _ _ (by decide)]
        · rw [dlookup_mergeField_ne _ _ _ _ h3]
          by_cases h4 : k = "access"
          · subst h4
            rw [mergeField_absent _ _ _ (hk (by simp))]
          · rw [dlookup_mergeField_ne _ _ _ _ h4]

theorem hasKey_dinsert_mono {d : Dict} {x : String} (k : String) (v : JVal)
    (h : hasKey d x = true) : hasKey (dinsert d k v) x = true := by
  rw [hasKey_iff_mem_dkeys] at h ⊢
  rw [dkeys_dinsert]
  by_cases hk : hasKey d k = true
  · simpa [hk] using h
  · simp [hk]
    exact Or.inl h

theorem hasKey_applyChange {fs fs1 : Dict} {c : JVal} (h : applyChange fs c = .ok fs1) :
    ∀ x, hasKey fs x = true → hasKey fs1 x = true := by
  intro x hx
  unfold applyChange at h
  repeat' split at h
  all_goals simp only [Except.ok.injEq, reduceCtorEq] at h
  all_goals subst h
  · exact hasKey_dinsert_mono _ _ hx
  · exact hx
  · exact hasKey_dinsert_mono _ _ hx

theorem hasKey_applyChanges (cs : List JVal) :
    ∀ fs x, hasKey fs x = true → hasKey (applyChanges fs cs).1 x = true := by
  induction cs with
  | nil => intro fs x hx; simpa [applyChanges] using hx
  | cons c rest ih =>
    intro fs x hx
    unfold applyChanges
    match hc : applyChange fs c with
    | .ok fs1 => exact ih fs1 x (hasKey_applyChange hc x hx)
    | .error e => simpa using hx

theorem handle_descriptionChange_features (st : HCState) (fs : Dict) (c : JVal) (cs : List JVal)
    (hfeat : st.features = some fs) :
    (handle_message st (.jobj [("resource", .jstr "/ro/descriptionChange"),
        ("action", .jstr "NOTIFY"), ("data", .jarr (c :: cs))])).state.features
      = some (applyChanges fs (c :: cs)).1 := by
  obtain ⟨sid, tx, si, svcs, tok, dbg, feats⟩ := st
  replace hfeat : feats = some fs := hfeat
  subst hfeat
  rcases hac : applyChanges fs (c :: cs) with ⟨fs1, errOpt⟩
  cases errOpt <;>
    simp [handle_message, handleObj, handleResponseNotify, hac, dlookup, hasKey, jvalBeq,
      jobjBeq, jlistBeq]

theorem applyChange_unknown_uid {fs cd : Dict} {uidv : JVal}
    (huid : dlookup cd "uid" = some uidv) (h : hasKey fs (pyStr uidv) = false) :
    applyChange fs (.jobj cd) = .ok (fs ++ [(pyStr uidv, .jobj cd)]) := by
  unfold applyChange
  simp only [huid, dlookup_none_of_hasKey_false h, dinsert_of_hasKey_false _ h]

theorem applyChange_known_uid {fs cd f : Dict} {uidv : JVal}
    (huid : dlookup cd "uid" = some uidv) (h : dlookup fs (pyStr uidv) = some (.jobj f)) :
    applyChange fs (.jobj cd) = .ok (dinsert fs (pyStr uidv) (.jobj (mergeChangeFields cd f))) := by
  unfold applyChange
  simp only [huid, h]

/-- A fresh device state used by the concrete runs. -/
def baseState : HCState :=
  { session_id := .jnull, tx_msg_id := none, services_initialized := false,
    services := [], token := .jnull, debug := false, features := some [] }

def c7msg : JVal :=
  .jobj [("resource", .jstr "/ro/descriptionChange"), ("action", .jstr "NOTIFY"),
         ("data", .jarr [.jobj [("uid", .jint 999), ("min", .jint 0)]])]

/-- C7 (counterexample): handling a description change for the unknown uid
`999` carrying only `min = 0` stores the WHOLE change entry — including
its `uid` field — as the new descriptor, i.e. `{"uid": 999, "min": 0}`,
which differs (even as a Python dict) from the `{"min": 0}` the claim
states. -/
theorem spec_c7_counterexample :
    (handle_message baseState c7msg).state.features
        = some [("999", .jobj [("uid", .jint 999), ("min", .jint 0)])] ∧
      JVal.jobj [("uid", .jint 999), ("min", .jint 0)] ≠ .jobj [("min", .jint 0)] ∧
      pyDictEq [("uid", .jint 999), ("min", .jint 0)] [("min", .jint 0)] = false := by
  refine ⟨by decide, by decide, by decide⟩

/-- C7 (amended): a description-change message for a single change entry
succeeds without error for an unknown uid and appends the change entry
itself (with its `uid` field) as the new partial descriptor; for a known
uid with a dictionary descriptor, exactly the fields `access`,
`available`, `min` and `max` present in the change are overwritten and
every other field keeps its value; and no registry key is ever removed. -/
theorem spec_c7_amended_registry_merge (st : HCState) (fs cd : Dict) (uidv : JVal)
    (hfeat : st.features = some fs)
    (huid : dlookup cd "uid" = some uidv) :
    (handle_message st (.jobj [("resource", .jstr "/ro/descriptionChange"),
        ("action", .jstr "NOTIFY"), ("data", .jarr [.jobj cd])])).state.features
      = some (applyChanges fs [.jobj cd]).1 ∧
    (hasKey fs (pyStr uidv) = false →
      (applyChanges fs [.jobj cd]).1 = fs ++ [(pyStr uidv, .jobj cd)]) ∧
    (∀ f, dlookup fs (pyStr uidv) = some (.jobj f) →
      (applyChanges fs [.jobj cd]).1
          = dinsert fs (pyStr uidv) (.jobj (mergeChangeFields cd f)) ∧
        (∀ k, (k = "access" ∨ k = "available" ∨ k = "min" ∨ k = "max") → hasKey cd k = true →
          dlookup (mergeChangeFields cd f) k = dlookup cd k) ∧
        (∀ k, ((k = "access" ∨ k = "available" ∨ k = "min" ∨ k = "max") → hasKey cd k = false) →
          dlookup (mergeChangeFields cd f) k = dlookup f k)) ∧
    (∀ x, hasKey fs x = true → hasKey (applyChanges fs [.jobj cd]).1 x = true) := by
  refine ⟨handle_descriptionChange_features st fs _ [] hfeat, ?_, ?_, ?_⟩
  · intro h
    simp [applyChanges, applyChange_unknown_uid huid h]
  · intro f hf
    refine ⟨?_, (mergeChangeFields_spec cd f).1, (mergeChangeFields_spec cd f).2⟩
    simp [applyChanges, applyChange_known_uid huid hf]
  · exact fun x hx => hasKey_applyChanges [.jobj cd] fs x hx

theorem spec_c7_witness :
    (handle_message baseState c7msg).state.features
        = some (applyChanges [] [.jobj [("uid", .jint 999), ("min", .jint 0)]]).1 ∧
      (applyChanges [] [.jobj [("uid", .jint 999), ("min", .jint 0)]]).1
        = [] ++ [("999", .jobj [("uid", .jint 999), ("min", .jint 0)])] :=
  ⟨(spec_c7_amended_registry_merge baseState [] [("uid", .jint 999), ("min", .jint 0)]
      (.jint 999) rfl rfl).1,
   (spec_c7_amended_registry_merge baseState [] [("uid", .jint 999), ("min", .jint 0)]
      (.jint 999) rfl rfl).2.1 (by decide)⟩

/-! ## C8: registry gaps during decoding -/

def fsGap : Dict := [("1", .jobj [("name", .jstr "BSH.Common.Root.SelectedProgram")])]

/-- A batch whose nested `options` list references uid `999`, which has no
descriptor in `fsGap`. -/
def gapBatch : JVal :=
  .jarr [.jobj [("uid", .jint 1),
                ("value", .jobj [("list", .jarr [.jobj [("options",
                    .jarr [.jobj [("uid", .jint 999), ("value", .jint 5)]])]])])]]

/-- C8 (counterexample): decoding is NOT total on registry gaps — an
`options` entry referencing a uid with no descriptor makes
`parse_values_new` raise (`None.split` inside `_decode_list_of_uids`)
instead of falling back to the stringified id. -/
theorem spec_c8_counterexample :
    parse_values_new (some fsGap) gapBatch = .error "AttributeError: split" := by
  decide

/-- C8 (amended): an identifier absent from the registry is harmless for a
TOP-LEVEL batch entry — decoding proceeds with the stringified uid as the
key (the logged "not defined in config" fallback), both for a string value
(pass-through) and for an integer value, whose program cross-reference
resolution falls back to the stringified integer when that integer is
itself unknown (`_get_program_name` returns its `fallback` for a missing
or nameless descriptor) — but an identifier inside a nested
`options`/`details` list whose descriptor is missing or nameless makes
`_decode_list_of_uids` raise an `AttributeError`, which propagates out of
the codec. -/
theorem spec_c8_amended_registry_gap :
    (∀ (fs : Dict) (k : Int) (s : String),
      featuresTruthy (some fs) = true →
      dlookup fs (pyStr (.jint k)) = none →
      lowerStr (pyStr (.jint k)) = pyStr (.jint k) →
      splitDot (pyStr (.jint k)) = [pyStr (.jint k)] →
      parse_values_new (some fs) (.jarr [.jobj [("uid", .jint k), ("value", .jstr s)]])
        = .ok (.jobj [(pyStr (.jint k), .jstr s)])) ∧
    (∀ (fs : Dict) (key fallback : String),
      (dlookup fs key = none ∨
        ∃ f, dlookup fs key = some (.jobj f) ∧ dlookup f "name" = none) →
      getProgramName fs key fallback = .ok (splitLast fallback)) ∧
    (∀ (fs : Dict) (k m : Int),
      featuresTruthy (some fs) = true →
      dlookup fs (pyStr (.jint k)) = none →
      lowerStr (pyStr (.jint k)) = pyStr (.jint k) →
      splitDot (pyStr (.jint k)) = [pyStr (.jint k)] →
      dlookup fs (toString m) = none →
      splitLast (pyStr (.jint m)) = pyStr (.jint m) →
      parse_values_new (some fs) (.jarr [.jobj [("uid", .jint k), ("value", .jint m)]])
        = .ok (.jobj [(pyStr (.jint k), .jstr (pyStr (.jint m)))])) ∧
    (∀ (fs acc : Dict) (ed : Dict) (uidv : JVal) (rest : List JVal),
      dlookup ed "uid" = some uidv →
      (dlookup fs (pyStr uidv) = none ∨
        ∃ f, dlookup fs (pyStr uidv) = some (.jobj f) ∧ dlookup f "name" = none) →
      decodeListOfUids fs acc (.jobj ed :: rest) = .error "AttributeError: split") := by
  refine ⟨?_, ?_, ?_, ?_⟩
  · intro fs k s htruthy hnone hlower hsplit
    unfold parse_values_new
    rw [htruthy]
    simp only [Bool.true_eq_false, if_false, Option.getD_some]
    unfold parseEntries parseEntry
    simp only [dlookup, if_pos, if_neg, String.reduceBEq, reduceIte]
    unfold getFeatureDict getFeatureName decodeValue decode_scalar nameSegments
    rw [hnone]
    simp only [dlookup, hlower, hsplit, List.length_singleton, gt_iff_lt, lt_irrefl,
      reduceIte, List.drop]
    simp [parseEntries, mergeDicts, mergeKey, dinsert, buildTree]
  · intro fs key fallback hgap
    unfold getProgramName
    rcases hgap with hnone | ⟨f, hsome, hname⟩
    · simp only [hnone]
    · simp only [hsome, hname]
  · intro fs k m htruthy hnone hlower hsplit hnone2 hsplit2
    unfold parse_values_new
    rw [htruthy]
    simp only [Bool.true_eq_false, if_false, Option.getD_some]
    unfold parseEntries parseEntry
    simp only [dlookup, if_pos, if_neg, String.reduceBEq, reduceIte]
    unfold getFeatureDict getFeatureName decodeValue decode_scalar nameSegments getProgramName
    rw [hnone]
    simp only [dlookup, hlower, hsplit, hnone2, hsplit2, List.length_singleton, gt_iff_lt,
      lt_irrefl, reduceIte, List.drop]
    simp [parseEntries, mergeDicts, mergeKey, dinsert, buildTree, hnone2, hsplit2]
  · intro fs acc ed uidv rest huid hgap
    unfold decodeListOfUids
    rcases hgap with hnone | ⟨f, hsome, hname⟩
    · simp only [huid, Option.getD_some, hnone]
    · simp only [huid, Option.getD_some, hsome, hname, Option.getD_none]

theorem spec_c8_witness :
    parse_values_new (some fsGap) (.jarr [.jobj [("uid", .jint 7), ("value", .jstr "idle")]])
        = .ok (.jobj [("7", .jstr "idle")]) ∧
      getProgramName fsGap "999" "A.B" = .ok "B" ∧
      parse_values_new (some fsGap) (.jarr [.jobj [("uid", .jint 7), ("value", .jint 42)]])
        = .ok (.jobj [("7", .jstr "42")]) ∧
      decodeListOfUids fsGap [] [.jobj [("uid", .jint 999), ("value", .jint 5)]]
        = .error "AttributeError: split" :=
  ⟨spec_c8_amended_registry_gap.1 fsGap 7 "idle" (by decide) (by decide) (by decide) (by decide),
   spec_c8_amended_registry_gap.2.1 fsGap "999" "A.B" (Or.inl (by decide)),
   spec_c8_amended_registry_gap.2.2.1 fsGap 7 42 (by decide) (by decide) (by decide) (by decide)
     (by decide) (by decide),
   spec_c8_amended_registry_gap.2.2.2 fsGap [] [("uid", .jint 999), ("value", .jint 5)]
     (.jint 999) [] (by decide) (Or.inl (by decide))⟩

/-! ## C4: enumeration-to-boolean collapse -/

theorem pyDictEq_forward {d1 d2 : Dict} (h : pyDictEq d1 d2 = true) :
    ∀ kv ∈ d1, dlookup d2 kv.1 = some kv.2 := by
  intro kv hkv
  unfold pyDictEq at h
  rw [Bool.and_eq_true] at h
  have := List.all_eq_true.mp h.1 kv hkv
  exact eq_of_beq this

theorem pyDictEq_hasKey {d1 d2 : Dict} (h : pyDictEq d1 d2 = true) :
    ∀ kv ∈ d2, hasKey d1 kv.1 = true := by
  intro kv hkv
  unfold pyDictEq at h
  rw [Bool.and_eq_true] at h
  exact List.all_eq_true.mp h.2 kv hkv

theorem pyDictEq_lookup {d1 d2 : Dict} {k : String} {w : JVal}
    (h : pyDictEq d1 d2 = true) (hk : dlookup d2 k = some w) (hh : hasKey d1 k = true) :
    dlookup d1 k = some w := by
  have hs : (dlookup d1 k).isSome = true := by rw [dlookup_isSome_iff_hasKey]; exact hh
  obtain ⟨v, hv⟩ := Option.isSome_iff_exists.mp hs
  have hmem : (k, v) ∈ d1 := dlookup_mem hv
  have := pyDictEq_forward h (k, v) hmem
  rw [hk] at this
  rw [hv]
  exact congrArg some (Option.some.injEq _ _ ▸ this).symm ▸ this ▸ rfl

theorem truthy_of_hasKey {pvd : Dict} {k : String} (h : hasKey pvd k = true) :
    truthy (.jobj pvd) = true := by
  cases pvd with
  | nil => simp [hasKey] at h
  | cons kv rest => simp [truthy]

/-- The scalar branch resolves the label and applies the special-case
boolean collapse for a `values` map Python-equal to the given special
enumeration. -/
theorem decode_scalar_enum_label {fs feature pvd : Dict} {v : JVal} {lbl : String}
    (hv : dlookup feature "values" = some (.jobj pvd))
    (hl : dlookup pvd (pyStr v) = some (.jstr lbl)) :
    decode_scalar fs feature v =
      (if pyDictEq pvd offPresentConfirmed then toBool (.jstr lbl) "present"
       else if pyDictEq pvd offOn then toBool (.jstr lbl) "on"
       else if pyDictEq pvd openClosed then toBool (.jstr lbl) "open"
       else .ok (.jstr lbl)) := by
  have hhk : hasKey pvd (pyStr v) = true := hasKey_of_dlookup_some hl
  have htr : truthy (.jobj pvd) = true := truthy_of_hasKey hhk
  unfold decode_scalar
  rw [hv]
  simp only [htr, if_pos, pyIn, hhk, hl]
  by_cases h1 : pyDictEq pvd offPresentConfirmed = true
  · simp [h1]
  · by_cases h2 : pyDictEq pvd offOn = true
    · simp [h1, h2]
    · by_cases h3 : pyDictEq pvd openClosed = true
      · simp [h1, h2, h3]
      · simp [h1, h2, h3]

def doorFeature : Dict :=
  [("name", .jstr "BSH.Common.Status.DoorState"),
   ("values", .jobj [("0", .jstr "Open"), ("1", .jstr "Closed")])]

/-- C4 (counterexample): `{"0": "Open", "1": "Closed"}` has the same keys
as `{"0": "Off", "1": "On"}` but different labels, yet the codec still
collapses it to a boolean: raw `0` decodes to `true`, not to the label
string `"Open"`. -/
theorem spec_c4_counterexample :
    pyDictEq [("0", .jstr "Open"), ("1", .jstr "Closed")] offOn = false ∧
      dkeys [("0", .jstr "Open"), ("1", .jstr "Closed")] = dkeys offOn ∧
      decode_scalar [] doorFeature (.jint 0) = .ok (.jbool true) ∧
      JVal.jbool true ≠ .jstr "Open" := by
  refine ⟨by decide, by decide, by decide, by decide⟩

/-- C4 (amended): for a `values` map Python-equal to `{"0": "Off", "1":
"On"}` the codec decodes raw `1` to `true` and raw `0` to `false`; for any
enumeration that is Python-equal to NONE of the three special-cased maps
(`Off/On`, `Open/Closed`, `Off/Present/Confirmed`), no boolean collapse
occurs and the resolved label passes through as a string. -/
theorem spec_c4_amended_boolean_collapse :
    (∀ (fs feature pvd : Dict),
      dlookup feature "values" = some (.jobj pvd) →
      pyDictEq pvd offOn = true →
      decode_scalar fs feature (.jint 1) = .ok (.jbool true) ∧
        decode_scalar fs feature (.jint 0) = .ok (.jbool false)) ∧
    (∀ (fs feature pvd : Dict) (v : JVal) (lbl : String),
      dlookup feature "values" = some (.jobj pvd) →
      pyDictEq pvd offPresentConfirmed = false →
      pyDictEq pvd offOn = false →
      pyDictEq pvd openClosed = false →
      dlookup pvd (pyStr v) = some (.jstr lbl) →
      decode_scalar fs feature v = .ok (.jstr lbl)) := by
  constructor
  · intro fs feature pvd hv h
    have hk1 : hasKey pvd "1" = true :=
      pyDictEq_hasKey h ("1", .jstr "On") (by simp [offOn])
    have hk0 : hasKey pvd "0" = true :=
      pyDictEq_hasKey h ("0", .jstr "Off") (by simp [offOn])
    have l1 : dlookup pvd "1" = some (.jstr "On") :=
      pyDictEq_lookup h (by decide) hk1
    have l0 : dlookup pvd "0" = some (.jstr "Off") :=
      pyDictEq_lookup h (by decide) hk0
    have hno : pyDictEq pvd offPresentConfirmed = false := by
      cases hp : pyDictEq pvd offPresentConfirmed with
      | false => rfl
      | true =>
        have := pyDictEq_lookup hp
          (show dlookup offPresentConfirmed "1" = some (.jstr "Present") by decide) hk1
        rw [l1] at this
        simp at this
    constructor
    · have l1' : dlookup pvd (pyStr (.jint 1)) = some (.jstr "On") := l1
      rw [decode_scalar_enum_label hv l1', hno, h]
      rw [if_neg (by simp), if_pos rfl]
      decide
    · have l0' : dlookup pvd (pyStr (.jint 0)) = some (.jstr "Off") := l0
      rw [decode_scalar_enum_label hv l0', hno, h]
      rw [if_neg (by simp), if_pos rfl]
      decide
  · intro fs feature pvd v lbl hv h1 h2 h3 hl
    rw [decode_scalar_enum_label hv hl, h1, h2, h3]
    simp

theorem spec_c4_witness :
    (decode_scalar [] [("values", .jobj [("0", .jstr "Off"), ("1", .jstr "On")])] (.jint 1)
          = .ok (.jbool true) ∧
      decode_scalar [] [("values", .jobj [("0", .jstr "Off"), ("1", .jstr "On")])] (.jint 0)
          = .ok (.jbool false)) ∧
      decode_scalar [] [("values", .jobj [("0", .jstr "No"), ("1", .jstr "Yes")])] (.jint 1)
        = .ok (.jstr "Yes") :=
  ⟨spec_c4_amended_boolean_collapse.1 [] [("values", .jobj [("0", .jstr "Off"), ("1", .jstr "On")])]
      [("0", .jstr "Off"), ("1", .jstr "On")] (by decide) (by decide),
   spec_c4_amended_boolean_collapse.2 [] [("values", .jobj [("0", .jstr "No"), ("1", .jstr "Yes")])]
      [("0", .jstr "No"), ("1", .jstr "Yes")] (.jint 1) "Yes"
      (by decide) (by decide) (by decide) (by decide) (by decide)⟩

/-! ## C5: feature-write validation -/

/-- C5: `test_feature` rejects (raises on) a write to a feature whose
descriptor has `access: "readonly"` in any casing, regardless of the
submitted value; and it accepts without raising an entry with an integer
uid present in the registry, a `value` field, `readwrite`/`writeonly`
access (case-insensitive), a value whose stringified form is a key of the
declared enumeration when one is declared, and an integer value within the
declared `[min, max]` bounds when declared. -/
theorem spec_c5_feature_write_validation :
    (∀ (fs dd f : Dict) (uidv v : JVal) (a : String),
      dlookup dd "uid" = some uidv →
      pyIsInt uidv = true →
      dlookup dd "value" = some v →
      dlookup fs (pyStr uidv) = some (.jobj f) →
      dlookup f "access" = some (.jstr a) →
      lowerStr a = "readonly" →
      ∃ e, test_feature (some fs) false [.jobj dd] = .error e) ∧
    (∀ (fs dd f : Dict) (k n : Int) (a : String),
      dlookup dd "uid" = some (.jint k) →
      dlookup dd "value" = some (.jint n) →
      dlookup fs (pyStr (.jint k)) = some (.jobj f) →
      dlookup f "access" = some (.jstr a) →
      (lowerStr a = "readwrite" ∨ lowerStr a = "writeonly") →
      (∀ pv, dlookup f "values" = some pv → pyIn (pyStr (.jint n)) pv = .ok true) →
      (∀ mv, dlookup f "min" = some mv → ∃ mn mxv mx, pyInt mv = .ok mn ∧
        dlookup f "max" = some mxv ∧ pyInt mxv = .ok mx ∧ mn ≤ n ∧ n ≤ mx) →
      test_feature (some fs) false [.jobj dd] = .ok ()) := by
  constructor
  · intro fs dd f uidv v a huid hint hval hfk hacc hlow
    refine ⟨"Unable to configure appliance. Feature has got wrong access.", ?_⟩
    have hhk : hasKey fs (pyStr uidv) = true := hasKey_of_dlookup_some hfk
    unfold test_feature testFeatureEntry
    simp only [huid, hint, hval, hfk, hacc, hlow, hhk, Bool.true_eq_false, if_false,
      Bool.false_eq_true, Bool.false_and, Option.isNone_none, reduceIte]
    rw [if_pos (by decide)]
  · intro fs dd f k n a huid hval hfk hacc hlow henum hmin
    have hhk : hasKey fs (pyStr (.jint k)) = true := hasKey_of_dlookup_some hfk
    unfold test_feature testFeatureEntry
    simp only [huid, hval, hfk, hacc, hhk, Bool.true_eq_false, Bool.false_eq_true, if_false,
      Bool.false_and, reduceIte, pyIsInt]
    have haccess : (lowerStr a != "readwrite" && lowerStr a != "writeonly") = false := by
      rcases hlow with h | h <;> simp [h]
    rw [haccess]
    simp only [Bool.false_eq_true, if_false, reduceIte]
    have hvc : (match dlookup f "values" with
        | some pv =>
          match pyIn (pyStr (.jint n)) pv with
          | .error e => Except.error e
          | .ok true => Except.ok ()
          | .ok false =>
            Except.error "Unable to configure appliance. Value is not a valid value (values)."
        | none => (Except.ok () : Except String Unit)) = Except.ok () := by
      cases hpv : dlookup f "values" with
      | none => rfl
      | some pv => simp [henum pv hpv]
    rw [hvc]
    cases hmv : dlookup f "min" with
    | none => rfl
    | some mv =>
      obtain ⟨mn, mxv, mx, hpmn, hmax, hpmx, hge, hle⟩ := hmin mv hmv
      simp only [hpmn, hmax, hpmx, intVal]
      have : (decide (n < mn) || decide (n > mx)) = false := by
        simp only [Bool.or_eq_false_iff, decide_eq_false_iff_not]
        omega
      rw [this]
      rfl

def roFeature : Dict := [("name", .jstr "A.ReadOnlySetting"), ("access", .jstr "readOnly")]

def rwFeature : Dict :=
  [("name", .jstr "A.WritableSetting"), ("access", .jstr "readWrite"),
   ("values", .jobj [("0", .jstr "Off2"), ("1", .jstr "Fast")]),
   ("min", .jint 0), ("max", .jint 1)]

def fsWrite : Dict := [("10", .jobj roFeature), ("11", .jobj rwFeature)]

theorem spec_c5_witness :
    (∃ e, test_feature (some fsWrite) false [.jobj [("uid", .jint 10), ("value", .jint 1)]]
        = .error e) ∧
      test_feature (some fsWrite) false [.jobj [("uid", .jint 11), ("value", .jint 1)]]
        = .ok () :=
  ⟨spec_c5_feature_write_validation.1 fsWrite [("uid", .jint 10), ("value", .jint 1)]
      roFeature (.jint 10) (.jint 1) "readOnly"
      (by decide) (by decide) (by decide) (by decide) (by decide) (by decide),
   spec_c5_feature_write_validation.2 fsWrite [("uid", .jint 11), ("value", .jint 1)]
      rwFeature 11 1 "readWrite"
      (by decide) (by decide) (by decide) (by decide) (Or.inl (by decide))
      (by
        intro pv hpv
        have h2 : some (JVal.jobj [("0", .jstr "Off2"), ("1", .jstr "Fast")]) = some pv := by
          rw [← hpv]; decide
        obtain rfl := Option.some.inj h2
        decide)
      (by
        intro mv hmv
        have h2 : some (JVal.jint 0) = some mv := by rw [← hmv]; decide
        obtain rfl := Option.some.inj h2
        exact ⟨0, .jint 1, 1, by decide, by decide, by decide, by decide, by decide⟩)⟩

/-! ## C6: program-selection validation -/

theorem checkOptions_ok {fs : Dict} {opts : List JVal}
    (h : ∀ o ∈ opts, ∃ od u, o = .jobj od ∧ dlookup od "uid" = some u ∧
        hasKey fs (pyStr u) = true) :
    checkOptions fs opts = .ok () := by
  induction opts with
  | nil => rfl
  | cons o rest ih =>
    obtain ⟨od, u, ho, hu, hk⟩ := h o (by simp)
    subst ho
    unfold checkOptions
    simp only [hu, hk, Bool.true_eq_false, if_false, reduceIte]
    exact ih (fun o ho => h o (by simp [ho]))

/-- C6: `test_program_data` rejects an integer program uid absent from the
registry; rejects a present uid whose descriptor name lacks the
`".Program."` substring; treats a present uid with a nameless descriptor
as only a warning; and accepts a present, correctly named (or nameless)
uid whose options, if any, all reference registry uids. -/
theorem spec_c6_program_selection_validation :
    (∀ (fs dd : Dict) (k : Int),
      dlookup dd "program" = some (.jint k) →
      hasKey fs (pyStr (.jint k)) = false →
      test_program_data (some fs) [.jobj dd]
        = .error "Unable to configure appliance. Program UID is not valid for this device.") ∧
    (∀ (fs dd f : Dict) (k : Int) (nm : String),
      dlookup dd "program" = some (.jint k) →
      dlookup fs (pyStr (.jint k)) = some (.jobj f) →
      dlookup f "name" = some (.jstr nm) →
      containsSub ".Program.".data nm.data = false →
      test_program_data (some fs) [.jobj dd]
        = .error "Unable to configure appliance. Program UID is not a valid program.") ∧
    (∀ (fs dd f : Dict) (k : Int),
      dlookup dd "program" = some (.jint k) →
      dlookup fs (pyStr (.jint k)) = some (.jobj f) →
      (dlookup f "name" = none ∨
        ∃ nm, dlookup f "name" = some (.jstr nm) ∧ containsSub ".Program.".data nm.data = true) →
      (dlookup dd "options" = none ∨
        ∃ opts, dlookup dd "options" = some (.jarr opts) ∧
          ∀ o ∈ opts, ∃ od u, o = .jobj od ∧ dlookup od "uid" = some u ∧
            hasKey fs (pyStr u) = true) →
      test_program_data (some fs) [.jobj dd] = .ok ()) := by
  refine ⟨?_, ?_, ?_⟩
  · intro fs dd k hprog hmiss
    unfold test_program_data testProgramDataEntry
    simp only [hprog, hmiss, pyIsInt, Bool.true_eq_false, if_false, reduceIte]
  · intro fs dd f k nm hprog hfk hname hsub
    have hhk : hasKey fs (pyStr (.jint k)) = true := hasKey_of_dlookup_some hfk
    unfold test_program_data testProgramDataEntry
    simp only [hprog, hhk, hfk, hname, hsub, pyIsInt, Bool.true_eq_false, if_false, reduceIte]
  · intro fs dd f k hprog hfk hname hopts
    have hhk : hasKey fs (pyStr (.jint k)) = true := hasKey_of_dlookup_some hfk
    unfold test_program_data testProgramDataEntry
    simp only [hprog, hhk, hfk, pyIsInt, Bool.true_eq_false, if_false, reduceIte]
    have hnc : (match dlookup f "name" with
        | some (JVal.jstr nm) =>
          if containsSub ".Program.".data nm.data = false then
            Except.error "Unable to configure appliance. Program UID is not a valid program."
          else Except.ok ()
        | some _ => Except.error "TypeError: name is not a string"
        | none => (Except.ok () : Except String Unit)) = Except.ok () := by
      rcases hname with hn | ⟨nm, hn, hc⟩
      · rw [hn]
      · rw [hn]
        simp [hc]
    rw [hnc]
    rcases hopts with ho | ⟨opts, ho, hall⟩
    · rw [ho]
      rfl
    · rw [ho]
      simp only [checkOptions_ok hall]
      rfl

def fsProg : Dict :=
  [("20", .jobj [("name", .jstr "Dishcare.Dishwasher.Program.Eco50")]),
   ("21", .jobj [("name", .jstr "Dishcare.Dishwasher.Option.SpeedPerfect")]),
   ("22", .jobj [("available", .jbool true)])]

theorem spec_c6_witness :
    test_program_data (some fsProg) [.jobj [("program", .jint 99)]]
        = .error "Unable to configure appliance. Program UID is not valid for this device." ∧
      test_program_data (some fsProg) [.jobj [("program", .jint 21)]]
        = .error "Unable to configure appliance. Program UID is not a valid program." ∧
      test_program_data (some fsProg)
          [.jobj [("program", .jint 20),
                  ("options", .jarr [.jobj [("uid", .jint 21), ("value", .jint 3)]])]]
        = .ok () :=
  ⟨spec_c6_program_selection_validation.1 fsProg [("program", .jint 99)] 99
      (by decide) (by decide),
   spec_c6_program_selection_validation.2.1 fsProg [("program", .jint 21)]
      [("name", .jstr "Dishcare.Dishwasher.Option.SpeedPerfect")] 21
      "Dishcare.Dishwasher.Option.SpeedPerfect" (by decide) (by decide) (by decide) (by decide),
   spec_c6_program_selection_validation.2.2 fsProg
      [("program", .jint 20),
       ("options", .jarr [.jobj [("uid", .jint 21), ("value", .jint 3)]])]
      [("name", .jstr "Dishcare.Dishwasher.Program.Eco50")] 20
      (by decide) (by decide)
      (Or.inr ⟨"Dishcare.Dishwasher.Program.Eco50", by decide, by decide⟩)
      (Or.inr ⟨[.jobj [("uid", .jint 21), ("value", .jint 3)]], by decide, by
        intro o ho
        simp only [List.mem_singleton] at ho
        subst ho
        exact ⟨[("uid", .jint 21), ("value", .jint 3)], .jint 21, rfl, by decide, by decide⟩⟩)⟩

/-! ## C2: validation failures prevent transmission -/

theorem validationFor_error {st : HCState} {resource : String} {dv : JVal} {e : String}
    (hdbg : st.debug = false)
    (hval : (resource = "/ro/values" ∧ test_feature st.features st.debug (wrapData dv) = .error e)
      ∨ ((resource = "/ro/activeProgram" ∨ resource = "/ro/selectedProgram")
          ∧ test_program_data st.features (wrapData dv) = .error e)) :
    validationFor st resource "POST" (wrapData dv) = .error e := by
  unfold validationFor
  rcases hval with ⟨rfl, hv⟩ | ⟨hres, hv⟩
  · rw [hdbg] at hv
    simp [hdbg, hv]
  · rcases hres with rfl | rfl <;> simp [hdbg, hv]

/-- C2: for a `get` with action POST, debug off, and one of the three
guarded resources, a validator rejection means `ws.send` is never called
(no message is handed to the transport), the session state — in particular
the sequence counter — is unchanged, and the error is surfaced
synchronously to the caller. -/
theorem spec_c2_validation_blocks_transmission (st : HCState) (resource : String)
    (version ver dv : JVal) (sendRaises : Bool) (e : String)
    (hdbg : st.debug = false)
    (hver : resolveVersion st resource version = .ok ver)
    (hval : (resource = "/ro/values" ∧ test_feature st.features st.debug (wrapData dv) = .error e)
      ∨ ((resource = "/ro/activeProgram" ∨ resource = "/ro/selectedProgram")
          ∧ test_program_data st.features (wrapData dv) = .error e)) :
    HCDevice.get st resource version "POST" (some dv) sendRaises
      = { sent := [], state := st, result := .error e } := by
  unfold HCDevice.get
  rw [hver]
  simp only [validationFor_error hdbg hval]

def stC2 : HCState :=
  { session_id := .jstr "s1", tx_msg_id := some (.jint 5), services_initialized := false,
    services := [], token := .jnull, debug := false, features := some fsWrite }

theorem spec_c2_witness :
    HCDevice.get stC2 "/ro/values" (.jint 1) "POST" (some (.jobj [("uid", .jint 99), ("value", .jint 0)]))
        true
      = { sent := [], state := stC2,
          result := .error "Unable to configure appliance. UID is not valid." } :=
  spec_c2_validation_blocks_transmission stC2 "/ro/values" (.jint 1) (.jint 1)
    (.jobj [("uid", .jint 99), ("value", .jint 0)]) true
    "Unable to configure appliance. UID is not valid."
    rfl (by decide) (Or.inl ⟨rfl, by decide⟩)

/-! ## C1: the outbound sequence counter -/

theorem get_ok_tx {st : HCState} {r : String} {ver : JVal} {a : String} {data : Option JVal}
    {sr : Bool} {n : Int} {v : JVal}
    (htx : st.tx_msg_id = some (.jint n))
    (h : (HCDevice.get st r ver a data sr).result = .ok v) :
    (HCDevice.get st r ver a data sr).state.tx_msg_id = some (.jint (n + 1)) := by
  unfold HCDevice.get at h ⊢
  match hrv : resolveVersion st r ver with
  | .error e =>
    rw [hrv] at h
    exact Except.noConfusion h
  | .ok ver2 =>
    simp only [hrv] at h ⊢
    cases data with
    | none =>
      unfold finishSend at h ⊢
      simp only [htx] at h ⊢
      try simp
    | some dv =>
      match hvv : validationFor st r a (wrapData dv) with
      | .error e =>
        simp only [hvv] at h
        exact Except.noConfusion h
      | .ok u =>
        simp only [hvv] at h ⊢
        unfold finishSend at h ⊢
        simp only [htx] at h ⊢
        try simp

theorem handleResponseNotify_tx (st : HCState) (md : Dict) (resource : JVal) :
    (handleResponseNotify st md resource).state.tx_msg_id = st.tx_msg_id := by
  unfold handleResponseNotify
  by_cases h1 : (jvalBeq resource (.jstr "/iz/info") || jvalBeq resource (.jstr "/ci/info")) = true
  · rw [if_pos h1]
  · rw [if_neg h1]
    by_cases h2 : (jvalBeq resource (.jstr "/ro/descriptionChange")
        || jvalBeq resource (.jstr "/ro/allDescriptionChanges")) = true
    · rw [if_pos h2]
      repeat' split
      all_goals rfl
    · rw [if_neg h2]
      by_cases h3 : jvalBeq resource (.jstr "/ni/info") = true
      · rw [if_pos h3]
      · rw [if_neg h3]
        by_cases h4 : jvalBeq resource (.jstr "/ni/config") = true
        · rw [if_pos h4]
        · rw [if_neg h4]
          by_cases h5 : (jvalBeq resource (.jstr "/ro/allMandatoryValues")
              || jvalBeq resource (.jstr "/ro/values")) = true
          · rw [if_pos h5]
            repeat' split
            all_goals rfl
          · rw [if_neg h5]
            by_cases h6 : (jvalBeq resource (.jstr "/ci/registeredDevices")
                || jvalBeq resource (.jstr "/ci/tzInfo")) = true
            · rw [if_pos h6]
            · rw [if_neg h6]
              by_cases h7 : jvalBeq resource (.jstr "/ci/authentication") = true
              · rw [if_pos h7]
                repeat' split
                all_goals rfl
              · rw [if_neg h7]
                by_cases h8 : jvalBeq resource (.jstr "/ci/services") = true
                · rw [if_pos h8]
                  repeat' split
                  all_goals rfl
                · rw [if_neg h8]

theorem handleObj_tx (st : HCState) (md : Dict)
    (hm : isHandshakeFrame (.jobj md) = false) :
    (handleObj st md).state.tx_msg_id = st.tx_msg_id := by
    unfold handleObj
    cases hr : dlookup md "resource" with
    | none => rfl
    | some resource =>
      cases ha : dlookup md "action" with
      | none => rfl
      | some action =>
        by_cases hcode : hasKey md "code" = true
        · simp [hcode]
        · rw [Bool.not_eq_true] at hcode
          simp only [hcode, Bool.false_eq_true, if_false, reduceIte]
          by_cases hpost : jvalBeq action (.jstr "POST") = true
          · simp only [hpost, if_true, reduceIte]
            by_cases hinit : jvalBeq resource (.jstr "/ei/initialValues") = true
            · exfalso
              unfold isHandshakeFrame at hm
              simp [hcode, ha, hr, hpost, hinit] at hm
            · rw [Bool.not_eq_true] at hinit
              simp only [hinit, Bool.false_eq_true, if_false, reduceIte]
          · rw [Bool.not_eq_true] at hpost
            rw [if_neg (by rw [hpost]; simp)]
            split
            · exact handleResponseNotify_tx st md resource
            · rfl

theorem handle_message_tx (st : HCState) (m : JVal) (hm : isHandshakeFrame m = false) :
    (handle_message st m).state.tx_msg_id = st.tx_msg_id := by
  cases m with
  | jnull => rfl
  | jbool b => rfl
  | jint n2 => rfl
  | jstr s => rfl
  | jarr xs => rfl
  | jobj md => exact handleObj_tx st md hm

theorem runSession_tx (events : List SessionEvent) :
    ∀ (st st' : HCState) (n : Int),
      st.tx_msg_id = some (.jint n) →
      (∀ m, SessionEvent.inbound m ∈ events → isHandshakeFrame m = false) →
      runSession st events = some st' →
      st'.tx_msg_id = some (.jint (n + countOutbound events)) := by
  induction events with
  | nil =>
    intro st st' n htx _ hrun
    simp [runSession] at hrun
    subst hrun
    simpa [countOutbound] using htx
  | cons e rest ih =>
    intro st st' n htx hin hrun
    cases e with
    | outbound r ver a d sr =>
      unfold runSession runStep at hrun
      match hres : (HCDevice.get st r ver a d sr).result with
      | .error e2 =>
        simp only [hres] at hrun
        exact Option.noConfusion hrun
      | .ok v =>
        simp only [hres] at hrun
        have htx2 := get_ok_tx htx hres
        have hfin := ih _ st' (n + 1) htx2
          (fun m hm => hin m (List.mem_cons_of_mem _ hm)) hrun
        rw [hfin]
        have : n + 1 + (countOutbound rest : Int) = n + (countOutbound rest + 1 : Nat) := by
          push_cast
          ring
        rw [this]
        rfl
    | inbound m =>
      unfold runSession runStep at hrun
      have hpres := handle_message_tx st m (hin m (List.mem_cons_self _ _))
      have htx2 : (handle_message st m).state.tx_msg_id = some (.jint n) := by
        rw [hpres, htx]
      have hfin := ih _ st' n htx2 (fun m2 hm2 => hin m2 (List.mem_cons_of_mem _ hm2)) hrun
      rw [hfin]
      rfl

theorem get_sent_stamped {st : HCState} {r : String} {ver : JVal} {a : String}
    {data : Option JVal} {sr : Bool} {n : Int} {v : JVal}
    (htx : st.tx_msg_id = some (.jint n))
    (h : (HCDevice.get st r ver a data sr).result = .ok v) :
    ∀ mv ∈ (HCDevice.get st r ver a data sr).sent,
      ∃ md2, mv = .jobj md2 ∧ dlookup md2 "sID" = some st.session_id ∧
        dlookup md2 "msgID" = some (.jint n) := by
  unfold HCDevice.get at h ⊢
  match hrv : resolveVersion st r ver with
  | .error e =>
    rw [hrv] at h
    exact Except.noConfusion h
  | .ok ver2 =>
    simp only [hrv] at h ⊢
    cases data with
    | none =>
      unfold finishSend at h ⊢
      simp only [htx] at h ⊢
      intro mv hmv
      simp only [List.mem_singleton] at hmv
      subst hmv
      refine ⟨_, rfl, ?_, ?_⟩ <;> simp [dlookup, htx]
    | some dv =>
      match hvv : validationFor st r a (wrapData dv) with
      | .error e =>
        simp only [hvv] at h
        exact Except.noConfusion h
      | .ok u =>
        simp only [hvv] at h ⊢
        unfold finishSend at h ⊢
        simp only [htx] at h ⊢
        intro mv hmv
        simp only [List.mem_singleton] at hmv
        subst hmv
        refine ⟨_, rfl, ?_, ?_⟩ <;> simp [dlookup, htx]

/-- C1: within one session (no inbound frame is the session-establishing
handshake), the outbound sequence counter starting at `n` ends at `n + K`
after a run in which all `K` issued `get` calls succeed, regardless of how
inbound frame handling interleaves with them; moreover every successful
`get` stamps the sent message with the current session id and the current
counter and then increments the counter by exactly one, regardless of
transport send failures. -/
theorem spec_c1_sequence_counter :
    (∀ (events : List SessionEvent) (st st' : HCState) (n : Int),
      st.tx_msg_id = some (.jint n) →
      (∀ m, SessionEvent.inbound m ∈ events → isHandshakeFrame m = false) →
      runSession st events = some st' →
      st'.tx_msg_id = some (.jint (n + countOutbound events))) ∧
    (∀ (st : HCState) (r : String) (ver : JVal) (a : String) (d : Option JVal)
        (sr : Bool) (n : Int) (v : JVal),
      st.tx_msg_id = some (.jint n) →
      (HCDevice.get st r ver a d sr).result = .ok v →
      (HCDevice.get st r ver a d sr).state.tx_msg_id = some (.jint (n + 1)) ∧
        ∀ mv ∈ (HCDevice.get st r ver a d sr).sent,
          ∃ md2, mv = .jobj md2 ∧ dlookup md2 "sID" = some st.session_id ∧
            dlookup md2 "msgID" = some (.jint n)) :=
  ⟨runSession_tx,
   fun _ _ _ _ _ _ _ _ htx h => ⟨get_ok_tx htx h, get_sent_stamped htx h⟩⟩

def stC1 : HCState :=
  { session_id := .jstr "s1", tx_msg_id := some (.jint 5), services_initialized := false,
    services := [], token := .jnull, debug := false, features := some [] }

/-- An inbound error frame (carries `code`), which must not disturb the
counter. -/
def errFrame : JVal :=
  .jobj [("resource", .jstr "/ro/values"), ("action", .jstr "RESPONSE"), ("code", .jint 400)]

def eventsC1 : List SessionEvent :=
  [.outbound "/ro/values" (.jint 1) "GET" none true,
   .inbound errFrame,
   .outbound "/ci/info" (.jint 1) "GET" none false]

def stFinalC1 : HCState :=
  { session_id := .jstr "s1", tx_msg_id := some (.jint 7), services_initialized := false,
    services := [], token := .jnull, debug := false, features := some [] }

theorem spec_c1_witness :
    stFinalC1.tx_msg_id = some (.jint (5 + (countOutbound eventsC1 : Int))) :=
  spec_c1_sequence_counter.1 eventsC1 stC1 stFinalC1 5 rfl
    (by
      intro m hm
      simp only [eventsC1, List.mem_cons, List.not_mem_nil, or_false] at hm
      rcases hm with h | h | h
      · exact absurd h (by simp)
      · obtain rfl : m = errFrame := by injection h with h2; try exact h2
        decide
      · exact absurd h (by simp))
    (by decide)
